import Mathlib

/-!
A shallow embedding of the verbot sources `bot/conf.go` and `bot/bot.go`.

Go strings are modelled by `String`; a Go pointer that may be nil is an
`Option`; a Go `error` result is an `Option GoError` (`none` is `nil`).
Calls into the Mattermost client library are recorded in a trace of
`Action`s and answered by a `Server` oracle, so that a statement about all
servers is a statement about every outcome of the remote calls.  Output
written with the `log` package is not part of the model.
-/

namespace Verbot

/-! ## Errors (`errors.New`, `errors.Wrap`) -/

/-- A Go error value, identified by the text its `Error()` method returns. -/
structure GoError where
  msg : String
deriving DecidableEq, Repr

/-- The call `errors.New(text)`. -/
def errorsNew (text : String) : GoError := ⟨text⟩

/-- The call `errors.Wrap(err, message)` of github.com/pkg/errors: the message of
the result is the context, a colon and a blank, then the message of the cause. -/
def errorsWrap (err : GoError) (message : String) : GoError :=
  ⟨message ++ ": " ++ err.msg⟩

/-! ## `bot/conf.go` -/

/-- The struct `BotNameConf`. -/
structure BotNameConf where
  Username : String
  First : String
  Last : String
deriving DecidableEq, Repr

/-- The struct `Conf`. -/
structure Conf where
  Url : String
  Login : String
  Password : String
  Team : String
  DebugChannel : String
  Bot : BotNameConf
deriving DecidableEq, Repr

/-- The method `Conf.Validate`.  Go's `len` counts bytes; a string has no byte
exactly when it has no character, so `len(s) == 0` is `s.length == 0`. -/
def Conf.Validate (c : Conf) : Option GoError :=
  if c.Url.length == 0 then
    some (errorsNew "Missing Url")
  else if c.Login.length == 0 then
    some (errorsNew "Missing Login")
  else if c.Password.length == 0 then
    some (errorsNew "Missing Password")
  else if c.Team.length == 0 then
    some (errorsNew "Missing Team")
  else
    none

/-! ## `strings.Replace` -/

/-- The worker of `strings.Replace` for a non-empty `old` and a count `n ≥ 0`:
scan the text from the left; `skip` counts the characters of the
occurrence of `old` just replaced that are still to be dropped. -/
def replaceAux (old new : List Char) : Nat → Nat → List Char → List Char
  | _, _, [] => []
  | n, skip + 1, _ :: t => replaceAux old new n skip t
  | 0, 0, c :: t => c :: replaceAux old new 0 0 t
  | n + 1, 0, c :: t =>
    if old.isPrefixOf (c :: t) then
      new ++ replaceAux old new n (old.length - 1) t
    else
      c :: replaceAux old new (n + 1) 0 t

/-- The call `strings.Replace(s, old, new, n)` for a non-empty `old` and `n ≥ 0`:
the first `n` non-overlapping occurrences of `old`, from the left, are
replaced by `new`. -/
def stringsReplace (s old new : String) (n : Nat) : String :=
  ⟨replaceAux old.data new.data n 0 s.data⟩

/-! ## `regexp.MatchString` -/

/-- The fragment of Go's regular-expression syntax that the patterns of
`bot.go` use. -/
inductive Regexp where
  /-- `^` without the multi-line flag: the beginning of the text -/
  | beginText
  /-- `$` without the multi-line flag: the end of the text -/
  | endText
  /-- `\W`: one character that is not a word character -/
  | notWord
  /-- one literal character -/
  | char (c : Char)
  /-- the empty expression -/
  | empty
  /-- concatenation -/
  | cat (r s : Regexp)
  /-- alternation; `(?:r|s)` groups without capturing -/
  | alt (r s : Regexp)
deriving Repr

/-- Go's word characters, the class `\w`: `[0-9A-Za-z_]`, ASCII only. -/
def isWordChar (c : Char) : Bool := c.isAlphanum || c == '_'

/-- All ways `r` can match a prefix of the remaining text `st.2` when the
`st.1` first characters of the text are already consumed: the list of the
states after the match. -/
def Regexp.run : Regexp → Nat × List Char → List (Nat × List Char)
  | .beginText, (i, s) => if i = 0 then [(i, s)] else []
  | .endText, (i, s) => if s.isEmpty then [(i, s)] else []
  | .notWord, (_, []) => []
  | .notWord, (i, c :: s) => if isWordChar c then [] else [(i + 1, s)]
  | .char _, (_, []) => []
  | .char c, (i, d :: s) => if c = d then [(i + 1, s)] else []
  | .empty, st => [st]
  | .cat r t, st => (r.run st).flatMap t.run
  | .alt r t, st => r.run st ++ t.run st

/-- Unanchored search: does `r` match at offset `i` or at a later one? -/
def Regexp.searchFrom (r : Regexp) : Nat → List Char → Bool
  | i, [] => !(r.run (i, [])).isEmpty
  | i, c :: s => !(r.run (i, c :: s)).isEmpty || r.searchFrom (i + 1) s

/-- The call `regexp.MatchString(pattern, s)` for a pattern that compiles to `r`
(the error result is then nil and `bot.go` discards it): whether the text
contains any match of `r`. -/
def regexpMatchString (r : Regexp) (s : String) : Bool :=
  r.searchFrom 0 s.data

/-- The expression matching the characters of `k` literally, in order. -/
def Regexp.literal : List Char → Regexp
  | [] => .empty
  | c :: k => .cat (.char c) (Regexp.literal k)

/-- The pattern `(?:^|\W)k(?:$|\W)` for a literal word `k`. -/
def keywordPattern (k : String) : Regexp :=
  .cat (.alt .beginText .notWord) (.cat (Regexp.literal k.data) (.alt .endText .notWord))

/-! ## The Mattermost client library, as far as `bot.go` uses it -/

/-- The fields of `model.User` that `bot.go` reads or writes. -/
structure User where
  Id : String
  Username : String
  FirstName : String
  LastName : String
deriving DecidableEq, Repr

/-- The field of `model.Team` that `bot.go` reads. -/
structure Team where
  Id : String
deriving DecidableEq, Repr

/-- The fields of `model.Channel` that `bot.go` reads or writes (`Type_` is the
field `Type`). -/
structure Channel where
  Id : String
  Name : String
  DisplayName : String
  Purpose : String
  Type_ : String
  TeamId : String
deriving DecidableEq, Repr

/-- The fields of `model.Post` that `bot.go` reads or writes. -/
structure Post where
  Id : String
  UserId : String
  ChannelId : String
  Message : String
  RootId : String
deriving DecidableEq, Repr

/-- The struct `model.WebsocketBroadcast`, of which `bot.go` reads `ChannelId`. -/
structure WebsocketBroadcast where
  ChannelId : String
deriving DecidableEq, Repr

/-- The struct `model.WebSocketEvent`.  `Data key` is `some s` when the map
`Data` holds the string `s` under `key`, and `none` when the key is absent
or holds a value of another type (the type assertion `.(string)` then
panics). -/
structure WebSocketEvent where
  Event : String
  Broadcast : Option WebsocketBroadcast
  Data : String → Option String

/-- The constant `model.WEBSOCKET_EVENT_POSTED`. -/
def WEBSOCKET_EVENT_POSTED : String := "posted"

/-- The constant `model.CHANNEL_OPEN`. -/
def CHANNEL_OPEN : String := "O"

/-- The struct `model.Client4`: the server address and the token of the session. -/
structure Client4 where
  Url : String
  AuthToken : String
deriving DecidableEq, Repr

/-- The struct `model.WebSocketClient`: the endpoint and the token it was opened with. -/
structure WebSocketClient where
  Url : String
  AuthToken : String
deriving DecidableEq, Repr

/-- What the code does to the outside world, in the order it does it. -/
inductive Action where
  | GetOldClientConfig
  | Login (loginId password : String)
  | UpdateUser (user : User)
  | GetTeamByName (name : String)
  | GetChannelByName (channelName teamId : String)
  | CreateChannel (channel : Channel)
  | CreatePost (post : Post)
  | NewWebSocketClient4 (url authToken : String)
  /-- `wsClient.Listen()` -/
  | Listen (ws : WebSocketClient)
  /-- `wsClient.Close()` -/
  | Close (ws : WebSocketClient)
  /-- a value sent on `exitChan`, which releases `Wait` -/
  | exitChanSend
deriving DecidableEq, Repr

/-- The outcomes of the remote calls.  A call that reports no error returns
the pointer to the object that the library decoded from the answer; this
pointer is nil (`none`) when the body of the answer does not decode.
`NewWebSocketClient4` builds its client itself, so it returns an error or a
client that is not nil. -/
structure Server where
  /-- the `Version` entry of the configuration, or the error -/
  GetOldClientConfig : Except GoError String
  /-- the pointer to the user and the session token, or the error -/
  Login : String → String → Except GoError (Option User × String)
  UpdateUser : User → Option GoError
  GetTeamByName : String → Except GoError (Option Team)
  GetChannelByName : String → String → Except GoError (Option Channel)
  CreateChannel : Channel → Except GoError (Option Channel)
  CreatePost : Post → Option GoError
  NewWebSocketClient4 : String → String → Option GoError

/-! ## Executions -/

/-- A run of a piece of Go code: the actions it performed, and its result;
`none` when it stopped in a run-time panic (a nil dereference or a failed
type assertion). -/
structure Exec (α : Type) where
  trace : List Action
  result : Option α

/-- Sequencing: the second part runs unless the first one panicked. -/
def Exec.bind {α β : Type} (m : Exec α) (f : α → Exec β) : Exec β :=
  match m.result with
  | none => ⟨m.trace, none⟩
  | some a => ⟨m.trace ++ (f a).trace, (f a).result⟩

instance : Monad Exec where
  pure a := ⟨[], some a⟩
  bind := Exec.bind

/-- Perform one action. -/
def act (a : Action) : Exec Unit := ⟨[a], some ()⟩

/-- A run-time panic. -/
def goPanic {α : Type} : Exec α := ⟨[], none⟩

/-- Follow a pointer: a nil pointer panics. -/
def deref {α : Type} (p : Option α) : Exec α :=
  match p with
  | some a => pure a
  | none => goPanic

/-! ## `bot/bot.go` -/

/-- The struct `Bot`.  The channel `exitChan` carries no data; sending on it
is the action `Action.exitChanSend`. -/
structure Bot where
  client : Client4
  user : Option User
  team : Option Team
  debugChannel : Option Channel
  wsClient : Option WebSocketClient
deriving DecidableEq, Repr

/-- The method `Bot.makeSureServerIsRunning`. -/
def makeSureServerIsRunning (srv : Server) (_bot : Bot) : Exec (Option GoError) := do
  act .GetOldClientConfig
  match srv.GetOldClientConfig with
  | .error e =>
    return some (errorsWrap e
      "There was a problem pinging the Mattermost server.  Are you sure it's running?")
  | .ok _ => return none

/-- The method `Bot.login`.  The library stores the session token in the
client when the login succeeds.  The pointer `userObj` is stored unchecked. -/
def login (srv : Server) (bot : Bot) (user pass : String) : Exec (Bot × Option GoError) := do
  act (.Login user pass)
  match srv.Login user pass with
  | .error e =>
    return (bot, some (errorsWrap e "There was a problem logging into the Mattermost server"))
  | .ok (userObj, token) =>
    return ({ bot with user := userObj, client := { bot.client with AuthToken := token } },
      none)

/-- The method `Bot.updateBotInfo`. -/
def updateBotInfo (srv : Server) (bot : Bot) (name : BotNameConf) :
    Exec (Bot × Option GoError) := do
  let u ← deref bot.user
  if u.FirstName ≠ name.First ∨ u.LastName ≠ name.Last ∨ u.Username ≠ name.Username then
    let u1 : User :=
      { u with FirstName := name.First, LastName := name.Last, Username := name.Username }
    let bot1 : Bot := { bot with user := some u1 }
    act (.UpdateUser u1)
    match srv.UpdateUser u1 with
    | some e => return (bot1, some (errorsWrap e "We failed to update the Bot user"))
    | none => return (bot1, none)
  else
    return (bot, none)

/-- The method `Bot.findTeam`.  The pointer `teamObj` is stored unchecked. -/
def findTeam (srv : Server) (bot : Bot) (team : String) : Exec (Bot × Option GoError) := do
  act (.GetTeamByName team)
  match srv.GetTeamByName team with
  | .error e =>
    return (bot, some (errorsWrap e
      ("We do not appear to be a member of the team '" ++ team ++ "'")))
  | .ok teamObj => return ({ bot with team := teamObj }, none)

/-- The method `Bot.createDebugChannel`.  The pointer `rchannel` is stored
unchecked on both paths. -/
def createDebugChannel (srv : Server) (bot : Bot) (channelName : String) :
    Exec (Bot × Option GoError) := do
  let t ← deref bot.team
  act (.GetChannelByName channelName t.Id)
  match srv.GetChannelByName channelName t.Id with
  | .ok rchannel => return ({ bot with debugChannel := rchannel }, none)
  | .error _ =>
    let u ← deref bot.user
    let channel : Channel :=
      { Id := ""
        Name := channelName
        DisplayName := "Debugging For " ++ u.Username ++ " Bot"
        Purpose := "This is used as a test channel for logging bot debug messages"
        Type_ := CHANNEL_OPEN
        TeamId := t.Id }
    act (.CreateChannel channel)
    match srv.CreateChannel channel with
    | .error e => return (bot, some (errorsWrap e "We failed to create the debug channel"))
    | .ok rchannel => return ({ bot with debugChannel := rchannel }, none)

/-- The method `Bot.sendDebugMsg`.  An error of `CreatePost` is logged and
otherwise ignored. -/
def sendDebugMsg (srv : Server) (bot : Bot) (msg replyToId : String) : Exec Unit := do
  let ch ← deref bot.debugChannel
  let post : Post :=
    { Id := "", UserId := "", ChannelId := ch.Id, Message := msg, RootId := replyToId }
  act (.CreatePost post)
  match srv.CreatePost post with
  | some _ => return ()
  | none => return ()

/-- The method `Bot.handleMsgFromDebuggingChannel`.  `PostFromJson` is the
library's decoder, which yields nil for a text it cannot decode.  In a call
`bot.sendDebugMsg(text, post.Id)` Go evaluates the argument `post.Id` before
it enters `sendDebugMsg`. -/
def handleMsgFromDebuggingChannel (srv : Server) (PostFromJson : String → Option Post)
    (bot : Bot) (event : WebSocketEvent) : Exec Unit := do
  let broadcast ← deref event.Broadcast
  let ch ← deref bot.debugChannel
  if broadcast.ChannelId ≠ ch.Id then
    return ()
  if event.Event ≠ WEBSOCKET_EVENT_POSTED then
    return ()
  let text ← deref (event.Data "post")
  let post := PostFromJson text
  match post with
  | some p =>
    let u ← deref bot.user
    if p.UserId = u.Id then
      return ()
    if regexpMatchString (keywordPattern "alive") p.Message then
      sendDebugMsg srv bot "Yes I'm running" p.Id
      return ()
    if regexpMatchString (keywordPattern "up") p.Message then
      sendDebugMsg srv bot "Yes I'm running" p.Id
      return ()
    if regexpMatchString (keywordPattern "running") p.Message then
      sendDebugMsg srv bot "Yes I'm running" p.Id
      return ()
    if regexpMatchString (keywordPattern "hello") p.Message then
      sendDebugMsg srv bot "Yes I'm running" p.Id
      return ()
  | none => pure ()
  let p ← deref post
  sendDebugMsg srv bot "I did not understand you!" p.Id

/-- The method `Bot.handleWebSocketResponse`. -/
def handleWebSocketResponse (srv : Server) (PostFromJson : String → Option Post)
    (bot : Bot) (event : WebSocketEvent) : Exec Unit :=
  handleMsgFromDebuggingChannel srv PostFromJson bot event

/-- The body of the goroutine that `Bot.setupGracefulShutdown` starts, for one
interrupt signal taken from the channel `c`. -/
def setupGracefulShutdown (srv : Server) (bot : Bot) : Exec Unit := do
  match bot.wsClient with
  | some ws => act (.Close ws)
  | none => pure ()
  let u ← deref bot.user
  sendDebugMsg srv bot ("_" ++ u.Username ++ " has **stopped** running_") ""
  act .exitChanSend

/-- The function `Connect`, up to the point where it starts the goroutine that
reads the events.  The pair is the Go result `(*Bot, error)`.  The call
`bot.setupGracefulShutdown()` only starts the goroutine whose body is
`setupGracefulShutdown`; no statement of `Connect` assigns `bot.wsClient`. -/
def Connect (srv : Server) (conf : Conf) : Exec (Option Bot × Option GoError) := do
  let client : Client4 := { Url := conf.Url, AuthToken := "" }
  let bot : Bot :=
    { client := client, user := none, team := none, debugChannel := none, wsClient := none }
  if let some err ← makeSureServerIsRunning srv bot then
    return (none, some err)
  let (bot, err) ← login srv bot conf.Login conf.Password
  if let some err := err then
    return (none, some err)
  let (bot, err) ← updateBotInfo srv bot conf.Bot
  if let some err := err then
    return (none, some err)
  let (bot, err) ← findTeam srv bot conf.Team
  if let some err := err then
    return (none, some err)
  let (bot, err) ← createDebugChannel srv bot conf.DebugChannel
  if let some err := err then
    return (none, some err)
  let u ← deref bot.user
  sendDebugMsg srv bot ("_" ++ u.Username ++ " has **started** running_") ""
  let wsUrl := stringsReplace conf.Url "http" "ws" 1
  act (.NewWebSocketClient4 wsUrl bot.client.AuthToken)
  match srv.NewWebSocketClient4 wsUrl bot.client.AuthToken with
  | some err => return (none, some (errorsWrap err "We failed to connect to the web socket"))
  | none =>
    let wsClient : WebSocketClient := { Url := wsUrl, AuthToken := bot.client.AuthToken }
    act (.Listen wsClient)
    return (some bot, none)

/-! ## Specification-side notions -/

/-- The keywords of `handleMsgFromDebuggingChannel`, in the order it tries them. -/
def keywords : List String := ["alive", "up", "running", "hello"]

/-- Whether a text may follow the end of a word: it is empty or begins with a
character that is not a word character. -/
def endsWord : List Char → Bool
  | [] => true
  | c :: _ => !isWordChar c

/-- Whether the word `k` begins the text and ends there. -/
def startsWord (k s : List Char) : Bool :=
  k.isPrefixOf s && endsWord (s.drop k.length)

/-- The word `k` occurs in the text `s` as a whole token in the sense of the
patterns: some occurrence of `k` has no word character of the ASCII class
`[0-9A-Za-z_]` (`isWordChar`) right before it and none right after it.  Any
other character, a letter outside ASCII too, bounds a token here. -/
def WholeWord (k s : String) : Prop :=
  ∃ pre post : List Char, s.data = pre ++ k.data ++ post ∧
    (∀ c ∈ pre.getLast?, isWordChar c = false) ∧
    (∀ c ∈ post.head?, isWordChar c = false)

/-- A letter outside ASCII: the Latin letters of the blocks Latin-1 Supplement,
Latin Extended-A and Latin Extended-B (U+00C0 to U+024F without the signs
U+00D7 and U+00F7), the Greek letters U+0391 to U+03C9 (U+03A2 is
unassigned) and the Cyrillic letters U+0410 to U+044F.  Unicode has more
letters; these are enough here. -/
def isLetterOutsideAscii (c : Char) : Bool :=
  (0xC0 ≤ c.toNat && c.toNat ≤ 0x24F && c.toNat != 0xD7 && c.toNat != 0xF7) ||
  (0x391 ≤ c.toNat && c.toNat ≤ 0x3C9 && c.toNat != 0x3A2) ||
  (0x410 ≤ c.toNat && c.toNat ≤ 0x44F)

/-- A character of a word as a reader of a message understands it: a letter, a
digit or an underscore, where a letter need not be an ASCII letter. -/
def isTextWordChar (c : Char) : Bool := isWordChar c || isLetterOutsideAscii c

/-- Whether `k` begins the text `s` as a whole token for the word characters
`isW`: the character `prev` before the text, if any, is no word character,
`k` is a prefix of `s`, and the character after this prefix, if any, is no
word character. -/
def tokenHere (isW : Char → Bool) (k : List Char) (prev : Option Char) (s : List Char) :
    Bool :=
  prev.all (fun c => !isW c) && k.isPrefixOf s &&
    (s.drop k.length).head?.all (fun c => !isW c)

/-- Whether `k` is a whole token for the word characters `isW` at the
beginning of the text `s`, which follows the character `prev`, or further on
in `s`. -/
def wholeTokenFrom (isW : Char → Bool) (k : List Char) : Option Char → List Char → Bool
  | prev, [] => tokenHere isW k prev []
  | prev, c :: t => tokenHere isW k prev (c :: t) || wholeTokenFrom isW k (some c) t

/-- The word `k` appears in the text `s` as a whole token and not only as a
substring of a longer word: some occurrence of `k` has no letter, digit or
underscore right before it and none right after it, whatever the alphabet of
the letter. -/
def wholeToken (k s : String) : Bool :=
  wholeTokenFrom isTextWordChar k.data none s.data

/-- The event is a `posted` event in the debug channel `ch` of the bot and its
payload decodes to the post `p`, which another user than the bot wrote. -/
def PostedByOther (PostFromJson : String → Option Post) (bot : Bot) (event : WebSocketEvent)
    (ch : Channel) (p : Post) : Prop :=
  bot.debugChannel = some ch ∧
  (∃ b, event.Broadcast = some b ∧ b.ChannelId = ch.Id) ∧
  event.Event = "posted" ∧
  (∃ text, event.Data "post" = some text ∧ PostFromJson text = some p) ∧
  (∃ u, bot.user = some u ∧ p.UserId ≠ u.Id)

/-- The reply with the text `msg` to the post `p` in the channel `ch`, as
`sendDebugMsg` fills it in. -/
def replyTo (ch : Channel) (p : Post) (msg : String) : Post :=
  { Id := "", UserId := "", ChannelId := ch.Id, Message := msg, RootId := p.Id }

/-- The user record after the identity sync: the three name fields are the
desired ones. -/
def syncedUser (u : User) (name : BotNameConf) : User :=
  { u with FirstName := name.First, LastName := name.Last, Username := name.Username }

/-- The user's name differs from the desired one in some field. -/
def needsSync (u : User) (name : BotNameConf) : Prop :=
  u.Username ≠ name.Username ∨ u.FirstName ≠ name.First ∨ u.LastName ≠ name.Last

instance (u : User) (name : BotNameConf) : Decidable (needsSync u name) := by
  unfold needsSync
  infer_instance

/-- The channel that `createDebugChannel` asks the server to create. -/
def newDebugChannel (channelName : String) (u : User) (t : Team) : Channel :=
  { Id := ""
    Name := channelName
    DisplayName := "Debugging For " ++ u.Username ++ " Bot"
    Purpose := "This is used as a test channel for logging bot debug messages"
    Type_ := CHANNEL_OPEN
    TeamId := t.Id }

/-- The announcement that `Connect` posts once the debug channel is resolved. -/
def startedPost (u : User) (ch : Channel) : Post :=
  { Id := "", UserId := "", ChannelId := ch.Id,
    Message := "_" ++ u.Username ++ " has **started** running_", RootId := "" }

/-- The announcement that the shutdown handler posts. -/
def stoppedPost (u : User) (ch : Channel) : Post :=
  { Id := "", UserId := "", ChannelId := ch.Id,
    Message := "_" ++ u.Username ++ " has **stopped** running_", RootId := "" }

/-- The calls of the identity sync for the user `u` that logged in. -/
def syncTrace (u : User) (name : BotNameConf) : List Action :=
  if needsSync u name then [.UpdateUser (syncedUser u name)] else []

/-- The calls of the channel resolution: the lookup, and the creation when the
lookup reports an error. -/
def channelTrace (srv : Server) (channelName : String) (u : User) (t : Team) : List Action :=
  .GetChannelByName channelName t.Id ::
    (match srv.GetChannelByName channelName t.Id with
     | .ok _ => []
     | .error _ => [.CreateChannel (newDebugChannel channelName u t)])

/-- The outcome of the channel resolution: the channel found, else the outcome
of the creation. -/
def resolvedChannel (srv : Server) (channelName : String) (u : User) (t : Team) :
    Except GoError (Option Channel) :=
  match srv.GetChannelByName channelName t.Id with
  | .ok ch => .ok ch
  | .error _ => srv.CreateChannel (newDebugChannel channelName u t)

/-- The paths through `Connect`: which outcomes of the remote calls lead to
which trace and result.  The result `none` is a run-time panic. -/
inductive ConnectPath (srv : Server) (conf : Conf) :
    Exec (Option Bot × Option GoError) → Prop
  | pingFailed (e : GoError) (h1 : srv.GetOldClientConfig = .error e) :
    ConnectPath srv conf
      ⟨[.GetOldClientConfig],
        some (none, some (errorsWrap e
          "There was a problem pinging the Mattermost server.  Are you sure it's running?"))⟩
  | loginFailed (v : String) (e : GoError) (h1 : srv.GetOldClientConfig = .ok v)
      (h2 : srv.Login conf.Login conf.Password = .error e) :
    ConnectPath srv conf
      ⟨[.GetOldClientConfig, .Login conf.Login conf.Password],
        some (none, some (errorsWrap e
          "There was a problem logging into the Mattermost server"))⟩
  | userNil (v : String) (tok : String) (h1 : srv.GetOldClientConfig = .ok v)
      (h2 : srv.Login conf.Login conf.Password = .ok (none, tok)) :
    ConnectPath srv conf ⟨[.GetOldClientConfig, .Login conf.Login conf.Password], none⟩
  | syncFailed (v : String) (u : User) (tok : String) (e : GoError)
      (h1 : srv.GetOldClientConfig = .ok v)
      (h2 : srv.Login conf.Login conf.Password = .ok (some u, tok))
      (h3 : needsSync u conf.Bot)
      (h3e : srv.UpdateUser (syncedUser u conf.Bot) = some e) :
    ConnectPath srv conf
      ⟨[.GetOldClientConfig, .Login conf.Login conf.Password,
          .UpdateUser (syncedUser u conf.Bot)],
        some (none, some (errorsWrap e "We failed to update the Bot user"))⟩
  | teamFailed (v : String) (u : User) (tok : String) (e : GoError)
      (h1 : srv.GetOldClientConfig = .ok v)
      (h2 : srv.Login conf.Login conf.Password = .ok (some u, tok))
      (h3 : needsSync u conf.Bot → srv.UpdateUser (syncedUser u conf.Bot) = none)
      (h4 : srv.GetTeamByName conf.Team = .error e) :
    ConnectPath srv conf
      ⟨[.GetOldClientConfig, .Login conf.Login conf.Password] ++ syncTrace u conf.Bot ++
          [.GetTeamByName conf.Team],
        some (none, some (errorsWrap e
          ("We do not appear to be a member of the team '" ++ conf.Team ++ "'")))⟩
  | teamNil (v : String) (u : User) (tok : String)
      (h1 : srv.GetOldClientConfig = .ok v)
      (h2 : srv.Login conf.Login conf.Password = .ok (some u, tok))
      (h3 : needsSync u conf.Bot → srv.UpdateUser (syncedUser u conf.Bot) = none)
      (h4 : srv.GetTeamByName conf.Team = .ok none) :
    ConnectPath srv conf
      ⟨[.GetOldClientConfig, .Login conf.Login conf.Password] ++ syncTrace u conf.Bot ++
          [.GetTeamByName conf.Team], none⟩
  | channelFailed (v : String) (u : User) (tok : String) (t : Team) (e : GoError)
      (h1 : srv.GetOldClientConfig = .ok v)
      (h2 : srv.Login conf.Login conf.Password = .ok (some u, tok))
      (h3 : needsSync u conf.Bot → srv.UpdateUser (syncedUser u conf.Bot) = none)
      (h4 : srv.GetTeamByName conf.Team = .ok (some t))
      (h5 : resolvedChannel srv conf.DebugChannel (syncedUser u conf.Bot) t = .error e) :
    ConnectPath srv conf
      ⟨[.GetOldClientConfig, .Login conf.Login conf.Password] ++ syncTrace u conf.Bot ++
          [.GetTeamByName conf.Team] ++
          channelTrace srv conf.DebugChannel (syncedUser u conf.Bot) t,
        some (none, some (errorsWrap e "We failed to create the debug channel"))⟩
  | channelNil (v : String) (u : User) (tok : String) (t : Team)
      (h1 : srv.GetOldClientConfig = .ok v)
      (h2 : srv.Login conf.Login conf.Password = .ok (some u, tok))
      (h3 : needsSync u conf.Bot → srv.UpdateUser (syncedUser u conf.Bot) = none)
      (h4 : srv.GetTeamByName conf.Team = .ok (some t))
      (h5 : resolvedChannel srv conf.DebugChannel (syncedUser u conf.Bot) t = .ok none) :
    ConnectPath srv conf
      ⟨[.GetOldClientConfig, .Login conf.Login conf.Password] ++ syncTrace u conf.Bot ++
          [.GetTeamByName conf.Team] ++
          channelTrace srv conf.DebugChannel (syncedUser u conf.Bot) t, none⟩
  | wsFailed (v : String) (u : User) (tok : String) (t : Team) (ch : Channel) (e : GoError)
      (h1 : srv.GetOldClientConfig = .ok v)
      (h2 : srv.Login conf.Login conf.Password = .ok (some u, tok))
      (h3 : needsSync u conf.Bot → srv.UpdateUser (syncedUser u conf.Bot) = none)
      (h4 : srv.GetTeamByName conf.Team = .ok (some t))
      (h5 : resolvedChannel srv conf.DebugChannel (syncedUser u conf.Bot) t = .ok (some ch))
      (h7 : srv.NewWebSocketClient4 (stringsReplace conf.Url "http" "ws" 1) tok = some e) :
    ConnectPath srv conf
      ⟨[.GetOldClientConfig, .Login conf.Login conf.Password] ++ syncTrace u conf.Bot ++
          [.GetTeamByName conf.Team] ++
          channelTrace srv conf.DebugChannel (syncedUser u conf.Bot) t ++
          [.CreatePost (startedPost (syncedUser u conf.Bot) ch),
           .NewWebSocketClient4 (stringsReplace conf.Url "http" "ws" 1) tok],
        some (none, some (errorsWrap e "We failed to connect to the web socket"))⟩
  | connected (v : String) (u : User) (tok : String) (t : Team) (ch : Channel)
      (h1 : srv.GetOldClientConfig = .ok v)
      (h2 : srv.Login conf.Login conf.Password = .ok (some u, tok))
      (h3 : needsSync u conf.Bot → srv.UpdateUser (syncedUser u conf.Bot) = none)
      (h4 : srv.GetTeamByName conf.Team = .ok (some t))
      (h5 : resolvedChannel srv conf.DebugChannel (syncedUser u conf.Bot) t = .ok (some ch))
      (h7 : srv.NewWebSocketClient4 (stringsReplace conf.Url "http" "ws" 1) tok = none) :
    ConnectPath srv conf
      ⟨[.GetOldClientConfig, .Login conf.Login conf.Password] ++ syncTrace u conf.Bot ++
          [.GetTeamByName conf.Team] ++
          channelTrace srv conf.DebugChannel (syncedUser u conf.Bot) t ++
          [.CreatePost (startedPost (syncedUser u conf.Bot) ch),
           .NewWebSocketClient4 (stringsReplace conf.Url "http" "ws" 1) tok,
           .Listen ⟨stringsReplace conf.Url "http" "ws" 1, tok⟩],
        some (some { client := ⟨conf.Url, tok⟩, user := some (syncedUser u conf.Bot),
                     team := some t, debugChannel := some ch, wsClient := none }, none)⟩

/-- Split a URL at its first `://` into the scheme and what follows the
separator; `none` when the URL has no `://`. -/
def splitScheme : List Char → Option (List Char × List Char)
  | [] => none
  | c :: t =>
    if "://".data.isPrefixOf (c :: t) then
      some ([], (c :: t).drop 3)
    else
      (splitScheme t).map (fun sr => (c :: sr.1, sr.2))

/-- The event-stream endpoint as the specification words it: the URL with only
its scheme substituted, `http` by `ws` and `https` by `wss`, and everything
after the scheme unchanged. -/
def schemeSubstituted (url : String) : String :=
  match splitScheme url.data with
  | none => url
  | some (scheme, rest) =>
    ⟨(if scheme = "http".data then "ws".data
      else if scheme = "https".data then "wss".data
      else scheme) ++ "://".data ++ rest⟩

/-- The phase of the bootstrap that an action belongs to: 1 liveness check,
2 login, 3 identity sync, 4 team resolution, 5 channel resolution, 6 startup
announcement, 7 event-stream connection; 8 for the actions of the shutdown. -/
def phaseOf : Action → Nat
  | .GetOldClientConfig => 1
  | .Login _ _ => 2
  | .UpdateUser _ => 3
  | .GetTeamByName _ => 4
  | .GetChannelByName _ _ => 5
  | .CreateChannel _ => 5
  | .CreatePost _ => 6
  | .NewWebSocketClient4 _ _ => 7
  | .Listen _ => 7
  | .Close _ => 8
  | .exitChanSend => 8

/-- The phases of the calls of a complete bootstrap, in order: the identity
sync issues a call or none, the channel resolution one call or two, and the
event-stream connection is opened and then listened on. -/
def bootstrapOrders : List (List Nat) :=
  [[1, 2, 3, 4, 5, 6, 7, 7], [1, 2, 3, 4, 5, 5, 6, 7, 7],
   [1, 2, 4, 5, 6, 7, 7], [1, 2, 4, 5, 5, 6, 7, 7]]

/-- The error that fails the bootstrap when the server answers the call `a`
with an error: the error of the call wrapped in the context of its phase.
`none` when the server reports no error, and for the calls whose error does
not fail the bootstrap: the channel lookup (the channel is then created) and
the post of the announcement (the error is only logged). -/
def fatalError (srv : Server) : Action → Option GoError
  | .GetOldClientConfig =>
    match srv.GetOldClientConfig with
    | .error e => some (errorsWrap e
        "There was a problem pinging the Mattermost server.  Are you sure it's running?")
    | .ok _ => none
  | .Login loginId password =>
    match srv.Login loginId password with
    | .error e => some (errorsWrap e "There was a problem logging into the Mattermost server")
    | .ok _ => none
  | .UpdateUser user =>
    match srv.UpdateUser user with
    | some e => some (errorsWrap e "We failed to update the Bot user")
    | none => none
  | .GetTeamByName name =>
    match srv.GetTeamByName name with
    | .error e => some (errorsWrap e
        ("We do not appear to be a member of the team '" ++ name ++ "'"))
    | .ok _ => none
  | .GetChannelByName _ _ => none
  | .CreateChannel channel =>
    match srv.CreateChannel channel with
    | .error e => some (errorsWrap e "We failed to create the debug channel")
    | .ok _ => none
  | .CreatePost _ => none
  | .NewWebSocketClient4 url authToken =>
    match srv.NewWebSocketClient4 url authToken with
    | some e => some (errorsWrap e "We failed to connect to the web socket")
    | none => none
  | .Listen _ => none
  | .Close _ => none
  | .exitChanSend => none

/-- The server answers the call `a` with no error and a nil object. -/
def nilObject (srv : Server) : Action → Bool
  | .Login loginId password =>
    match srv.Login loginId password with
    | .ok (none, _) => true
    | _ => false
  | .GetTeamByName name =>
    match srv.GetTeamByName name with
    | .ok none => true
    | _ => false
  | .GetChannelByName channelName teamId =>
    match srv.GetChannelByName channelName teamId with
    | .ok none => true
    | _ => false
  | .CreateChannel channel =>
    match srv.CreateChannel channel with
    | .ok none => true
    | _ => false
  | _ => false

/-! ## Concrete inputs for the examples -/

/-- A server on which every call succeeds; the debug channel already exists. -/
def demoServer : Server where
  GetOldClientConfig := .ok "5.2.0"
  Login := fun loginId _ => .ok (some ⟨"bot-id", loginId, "", ""⟩, "token")
  UpdateUser := fun _ => none
  GetTeamByName := fun _ => .ok (some ⟨"team-id"⟩)
  GetChannelByName := fun name teamId =>
    .ok (some ⟨"debug-id", name, "Debug", "", CHANNEL_OPEN, teamId⟩)
  CreateChannel := fun c => .ok (some { c with Id := "debug-id" })
  CreatePost := fun _ => none
  NewWebSocketClient4 := fun _ _ => none

/-- A server that answers the login with no error and a body that does not
decode to a user. -/
def nilUserServer : Server :=
  { demoServer with Login := fun _ _ => .ok (none, "token") }

/-- A debug channel. -/
def demoChannel : Channel :=
  ⟨"debug-id", "verbot-debug", "Debug", "", CHANNEL_OPEN, "team-id"⟩

/-- A bot after a successful bootstrap. -/
def demoBot : Bot where
  client := ⟨"http://localhost:8065", "token"⟩
  user := some ⟨"bot-id", "verbot", "VerBot", ""⟩
  team := some ⟨"team-id"⟩
  debugChannel := some demoChannel
  wsClient := none

/-- A decoder for the examples: the payload `not json` does not decode, any
other payload is the message of a post that the user `author` wrote. -/
def demoPostFromJson (author : String) (text : String) : Option Post :=
  if text = "not json" then none else some ⟨"post-id", author, "debug-id", text, ""⟩

/-- A `posted` event in the debug channel with the payload `text`. -/
def demoEvent (text : String) : WebSocketEvent where
  Event := "posted"
  Broadcast := some ⟨"debug-id"⟩
  Data := fun key => if key = "post" then some text else none

/-- A valid configuration. -/
def demoConf : Conf where
  Url := "http://localhost:8065"
  Login := "bot@example.com"
  Password := "secret"
  Team := "verbio"
  DebugChannel := "verbot-debug"
  Bot := ⟨"verbot", "VerBot", ""⟩

/-- A valid configuration whose URL spells the scheme in capitals and has
`http` in the host name. -/
def capitalsConf : Conf where
  Url := "HTTPS://httpbot.example.com"
  Login := "bot@example.com"
  Password := "secret"
  Team := "verbio"
  DebugChannel := "verbot-debug"
  Bot := ⟨"verbot", "VerBot", ""⟩

/-! ## Auxiliary facts -/

theorem strLength_eq_zero_iff (s : String) : s.length = 0 ↔ s = "" := by
  cases s with
  | mk d =>
    constructor
    · intro h
      have hd : d = [] := List.length_eq_zero.mp h
      subst hd
      rfl
    · intro h
      rw [h]
      rfl

@[simp] theorem Exec.bind_eq {α β : Type} (m : Exec α) (f : α → Exec β) :
    (m >>= f) = Exec.bind m f := rfl

@[simp] theorem Exec.pure_eq {α : Type} (a : α) : (pure a : Exec α) = ⟨[], some a⟩ := rfl

@[simp] theorem Exec.bind_mk_some {α β : Type} (t : List Action) (a : α) (f : α → Exec β) :
    Exec.bind ⟨t, some a⟩ f = ⟨t ++ (f a).trace, (f a).result⟩ := rfl

@[simp] theorem Exec.bind_mk_none {α β : Type} (t : List Action) (f : α → Exec β) :
    Exec.bind (⟨t, none⟩ : Exec α) f = ⟨t, none⟩ := rfl

/-! ### The keyword patterns -/

theorem run_literal (k : List Char) (i : Nat) (s : List Char) :
    (Regexp.literal k).run (i, s) =
      if k.isPrefixOf s then [(i + k.length, s.drop k.length)] else [] := by
  induction k generalizing i s with
  | nil => simp [Regexp.literal, Regexp.run]
  | cons c k ih =>
    cases s with
    | nil => simp [Regexp.literal, Regexp.run, List.isPrefixOf]
    | cons d s =>
      by_cases hcd : c = d
      · subst hcd
        simp [Regexp.literal, Regexp.run, List.isPrefixOf, ih]
        split <;> simp [Nat.add_comm, Nat.add_left_comm]
      · simp [Regexp.literal, Regexp.run, List.isPrefixOf, hcd]

theorem run_wordEnd (i : Nat) (s : List Char) :
    (Regexp.alt .endText .notWord).run (i, s) ≠ [] ↔ endsWord s = true := by
  cases s with
  | nil => simp [Regexp.run, endsWord]
  | cons c t =>
    cases h : isWordChar c <;> simp [Regexp.run, endsWord, h]

theorem run_wordTail (k : List Char) (i : Nat) (s : List Char) :
    (Regexp.cat (Regexp.literal k) (Regexp.alt .endText .notWord)).run (i, s) ≠ [] ↔
      startsWord k s = true := by
  have hrun : (Regexp.cat (Regexp.literal k) (Regexp.alt .endText .notWord)).run (i, s) =
      ((Regexp.literal k).run (i, s)).flatMap (Regexp.alt .endText .notWord).run := rfl
  rw [hrun, run_literal]
  cases hp : k.isPrefixOf s
  · simp [startsWord, hp]
  · have := run_wordEnd (i + k.length) (s.drop k.length)
    simpa [startsWord, hp] using this

theorem run_keywordPattern (k : String) (i : Nat) (s : List Char) :
    (keywordPattern k).run (i, s) ≠ [] ↔
      (i = 0 ∧ startsWord k.data s = true) ∨
      (∃ c t, s = c :: t ∧ isWordChar c = false ∧ startsWord k.data t = true) := by
  have hrun : (keywordPattern k).run (i, s) =
      ((Regexp.alt .beginText .notWord).run (i, s)).flatMap
        (Regexp.cat (Regexp.literal k.data) (Regexp.alt .endText .notWord)).run := rfl
  rw [hrun, Ne, List.flatMap_eq_nil_iff]
  constructor
  · intro h
    by_contra hcon
    apply h
    intro st hst
    by_contra hne
    apply hcon
    cases s with
    | nil =>
      by_cases hi : i = 0
      · simp [Regexp.run, hi] at hst
        subst hst
        exact Or.inl ⟨hi, (run_wordTail _ _ _).mp hne⟩
      · simp [Regexp.run, hi] at hst
    | cons c t =>
      have hmem : (i = 0 ∧ st = (i, c :: t)) ∨ (isWordChar c = false ∧ st = (i + 1, t)) := by
        by_cases hi : i = 0 <;> cases hw : isWordChar c <;>
          simp [Regexp.run, hi, hw] at hst ⊢ <;> simp [hst]
      rcases hmem with ⟨hi, rfl⟩ | ⟨hw, rfl⟩
      · exact Or.inl ⟨hi, (run_wordTail _ _ _).mp hne⟩
      · exact Or.inr ⟨c, t, rfl, hw, (run_wordTail _ _ _).mp hne⟩
  · rintro (⟨hi, hs⟩ | ⟨c, t, rfl, hw, hs⟩) hall
    · have hmem : (i, s) ∈ (Regexp.alt .beginText .notWord).run (i, s) := by
        simp [Regexp.run, hi]
      exact (run_wordTail _ _ _).mpr hs (hall _ hmem)
    · have hmem : (i + 1, t) ∈ (Regexp.alt .beginText .notWord).run (i, c :: t) := by
        simp [Regexp.run, hw]
      exact (run_wordTail _ _ _).mpr hs (hall _ hmem)

theorem searchFrom_iff (r : Regexp) (i : Nat) (s : List Char) :
    r.searchFrom i s = true ↔ ∃ a b, s = a ++ b ∧ r.run (i + a.length, b) ≠ [] := by
  induction s generalizing i with
  | nil =>
    simp only [Regexp.searchFrom, Bool.not_eq_true', List.isEmpty_eq_false]
    constructor
    · intro h
      exact ⟨[], [], rfl, by simpa using h⟩
    · rintro ⟨a, b, hab, h⟩
      have ha : a = [] := by
        cases a with
        | nil => rfl
        | cons d a => simp at hab
      have hb : b = [] := by
        cases b with
        | nil => rfl
        | cons d b => simp at hab
      subst ha hb
      simpa using h
  | cons c s ih =>
    simp only [Regexp.searchFrom, Bool.or_eq_true, ih, Bool.not_eq_true', List.isEmpty_eq_false]
    constructor
    · rintro (h | ⟨a, b, rfl, h⟩)
      · exact ⟨[], c :: s, rfl, by simpa using h⟩
      · exact ⟨c :: a, b, rfl, by simpa [Nat.add_comm, Nat.add_left_comm] using h⟩
    · rintro ⟨a, b, hab, h⟩
      cases a with
      | nil =>
        left
        simp at hab
        subst hab
        simpa using h
      | cons d a =>
        right
        simp at hab
        obtain ⟨rfl, rfl⟩ := hab
        exact ⟨a, b, rfl, by simpa [Nat.add_comm, Nat.add_left_comm] using h⟩

theorem startsWord_iff (k s : List Char) :
    startsWord k s = true ↔ ∃ post, s = k ++ post ∧ endsWord post = true := by
  unfold startsWord
  rw [Bool.and_eq_true, List.isPrefixOf_iff_prefix]
  constructor
  · rintro ⟨⟨t, rfl⟩, h⟩
    exact ⟨t, rfl, by simpa using h⟩
  · rintro ⟨post, rfl, h⟩
    exact ⟨⟨post, rfl⟩, by simpa using h⟩

theorem endsWord_iff (post : List Char) :
    endsWord post = true ↔ ∀ c ∈ post.head?, isWordChar c = false := by
  cases post with
  | nil => simp [endsWord]
  | cons c t => simp [endsWord]

/-- The pattern of a keyword matches a text exactly when the keyword occurs
in it as a whole token. -/
theorem regexpMatchString_keywordPattern (k s : String) :
    regexpMatchString (keywordPattern k) s = true ↔ WholeWord k s := by
  unfold regexpMatchString WholeWord
  rw [searchFrom_iff]
  constructor
  · rintro ⟨a, b, hab, h⟩
    rw [run_keywordPattern] at h
    rcases h with ⟨ha, hs⟩ | ⟨c, t, rfl, hw, hs⟩
    · obtain ⟨post, rfl, hpost⟩ := (startsWord_iff _ _).mp hs
      have ha0 : a = [] := by
        apply List.length_eq_zero.mp
        omega
      subst ha0
      exact ⟨[], post, by simpa using hab, by simp, (endsWord_iff _).mp hpost⟩
    · obtain ⟨post, rfl, hpost⟩ := (startsWord_iff _ _).mp hs
      refine ⟨a ++ [c], post, by simpa using hab, ?_, (endsWord_iff _).mp hpost⟩
      intro d hd
      simp at hd
      subst hd
      exact hw
  · rintro ⟨pre, post, hs, hpre, hpost⟩
    rcases List.eq_nil_or_concat pre with rfl | ⟨L, c, rfl⟩
    · refine ⟨[], k.data ++ post, by simpa using hs, ?_⟩
      rw [run_keywordPattern]
      exact Or.inl ⟨rfl, (startsWord_iff _ _).mpr ⟨post, rfl, (endsWord_iff _).mpr hpost⟩⟩
    · refine ⟨L, c :: (k.data ++ post), by simpa using hs, ?_⟩
      rw [run_keywordPattern]
      refine Or.inr ⟨c, _, rfl, ?_, (startsWord_iff _ _).mpr ⟨post, rfl, (endsWord_iff _).mpr hpost⟩⟩
      apply hpre
      simp

/-! ## Configuration -/

/-- C1: `Conf.Validate` returns an error exactly when one of `Url`, `Login`,
`Password`, `Team` is empty; the error is `Missing <Field>` for a field that
is empty in this configuration; it returns nil when the four are non-empty;
and `DebugChannel` and `Bot` have no influence on the result. -/
theorem Conf.Validate_iff_missing (c : Conf) :
    ((∃ e, c.Validate = some e) ↔
        (c.Url = "" ∨ c.Login = "" ∨ c.Password = "" ∨ c.Team = "")) ∧
    (∀ e, c.Validate = some e →
        (e = errorsNew "Missing Url" ∧ c.Url = "") ∨
        (e = errorsNew "Missing Login" ∧ c.Login = "") ∨
        (e = errorsNew "Missing Password" ∧ c.Password = "") ∨
        (e = errorsNew "Missing Team" ∧ c.Team = "")) ∧
    ((c.Url ≠ "" ∧ c.Login ≠ "" ∧ c.Password ≠ "" ∧ c.Team ≠ "") → c.Validate = none) ∧
    (∀ (d : String) (b : BotNameConf),
        Conf.Validate { c with DebugChannel := d, Bot := b } = c.Validate) := by
  have hU := strLength_eq_zero_iff c.Url
  have hL := strLength_eq_zero_iff c.Login
  have hP := strLength_eq_zero_iff c.Password
  have hT := strLength_eq_zero_iff c.Team
  refine ⟨?_, ?_, ?_, ?_⟩
  · unfold Conf.Validate
    by_cases h1 : c.Url.length = 0 <;> by_cases h2 : c.Login.length = 0 <;>
      by_cases h3 : c.Password.length = 0 <;> by_cases h4 : c.Team.length = 0 <;>
      simp [h1, h2, h3, h4, ← hU, ← hL, ← hP, ← hT]
  · intro e
    unfold Conf.Validate
    by_cases h1 : c.Url.length = 0 <;> by_cases h2 : c.Login.length = 0 <;>
      by_cases h3 : c.Password.length = 0 <;> by_cases h4 : c.Team.length = 0 <;>
      simp [h1, h2, h3, h4, ← hU, ← hL, ← hP, ← hT] <;>
      intro h <;> simp [← h]
  · rintro ⟨n1, n2, n3, n4⟩
    unfold Conf.Validate
    simp [hU, hL, hP, hT, n1, n2, n3, n4]
  · intro d b
    rfl

/-! ## The message handler -/

theorem sendDebugMsg_eq (srv : Server) (bot : Bot) (msg replyToId : String) (ch : Channel)
    (hch : bot.debugChannel = some ch) :
    sendDebugMsg srv bot msg replyToId =
      ⟨[.CreatePost
          { Id := "", UserId := "", ChannelId := ch.Id, Message := msg, RootId := replyToId }],
        some ()⟩ := by
  unfold sendDebugMsg
  simp only [hch, deref, Exec.bind_eq, Exec.pure_eq, Exec.bind_mk_some, act]
  cases srv.CreatePost _ <;> rfl

theorem handle_posted (srv : Server) (PostFromJson : String → Option Post) (bot : Bot)
    (event : WebSocketEvent) (ch : Channel) (p : Post)
    (h : PostedByOther PostFromJson bot event ch p) :
    handleMsgFromDebuggingChannel srv PostFromJson bot event =
      ⟨[.CreatePost (replyTo ch p
          (if keywords.any (fun k => regexpMatchString (keywordPattern k) p.Message)
           then "Yes I'm running" else "I did not understand you!"))], some ()⟩ := by
  obtain ⟨hch, ⟨b, hb, hbc⟩, hev, ⟨text, hdata, hpost⟩, ⟨u, hu, hother⟩⟩ := h
  unfold handleMsgFromDebuggingChannel
  simp only [sendDebugMsg_eq srv bot _ _ ch hch]
  by_cases h1 : regexpMatchString (keywordPattern "alive") p.Message = true <;>
  by_cases h2 : regexpMatchString (keywordPattern "up") p.Message = true <;>
  by_cases h3 : regexpMatchString (keywordPattern "running") p.Message = true <;>
  by_cases h4 : regexpMatchString (keywordPattern "hello") p.Message = true <;>
  simp [hch, hb, hbc, hev, hdata, hpost, hu, hother, deref, WEBSOCKET_EVENT_POSTED, keywords,
    replyTo, h1, h2, h3, h4]

theorem not_wholeWord_iff (k s : String) :
    ¬ WholeWord k s ↔ regexpMatchString (keywordPattern k) s = false := by
  rw [← regexpMatchString_keywordPattern, Bool.not_eq_true]

theorem isWordChar_iff (c : Char) :
    isWordChar c = true ↔
      (48 ≤ c.toNat ∧ c.toNat ≤ 57) ∨ (65 ≤ c.toNat ∧ c.toNat ≤ 90) ∨
      (97 ≤ c.toNat ∧ c.toNat ≤ 122) ∨ c.toNat = 95 := by
  have h95 : c = '_' ↔ c.toNat = 95 := by
    constructor
    · rintro rfl
      rfl
    · intro h
      apply Char.ext
      apply UInt32.ext
      simpa [Char.toNat] using h
  simp only [isWordChar, Char.isAlphanum, Char.isAlpha, Char.isUpper, Char.isLower, Char.isDigit,
    Bool.or_eq_true, Bool.and_eq_true, decide_eq_true_eq, beq_iff_eq, h95, UInt32.le_def,
    Fin.le_def, Char.toNat, UInt32.toNat, ge_iff_le]
  constructor
  · rintro (((h | h) | h) | h)
    · exact Or.inr (Or.inl h)
    · exact Or.inr (Or.inr (Or.inl h))
    · exact Or.inl h
    · exact Or.inr (Or.inr (Or.inr h))
  · rintro (h | h | h | h)
    · exact Or.inl (Or.inr h)
    · exact Or.inl (Or.inl (Or.inl h))
    · exact Or.inl (Or.inl (Or.inr h))
    · exact Or.inr h

theorem tokenHere_iff (isW : Char → Bool) (k : List Char) (prev : Option Char)
    (s : List Char) :
    tokenHere isW k prev s = true ↔
      (∀ c ∈ prev, isW c = false) ∧
      ∃ post, s = k ++ post ∧ ∀ c ∈ post.head?, isW c = false := by
  unfold tokenHere
  rw [Bool.and_eq_true, Bool.and_eq_true, List.isPrefixOf_iff_prefix]
  constructor
  · rintro ⟨⟨hprev, ⟨post, rfl⟩⟩, hpost⟩
    refine ⟨?_, post, rfl, ?_⟩
    · cases prev with
      | none => simp
      | some p => simpa using hprev
    · rw [List.drop_left] at hpost
      cases post with
      | nil => simp
      | cons d post => simpa using hpost
  · rintro ⟨hprev, post, rfl, hpost⟩
    refine ⟨⟨?_, ⟨post, rfl⟩⟩, ?_⟩
    · cases prev with
      | none => simp
      | some p => simpa using hprev
    · rw [List.drop_left]
      cases post with
      | nil => simp
      | cons d post => simpa using hpost

theorem getLast?_cons_or (c : Char) (a : List Char) (prev : Option Char) :
    ((c :: a).getLast?).or prev = a.getLast?.or (some c) := by
  have h : (c :: a).getLast? = a.getLast?.or (some c) := by
    have := @List.getLast?_append Char [c] a
    simpa using this
  rw [h]
  cases a.getLast? <;> rfl

theorem wholeTokenFrom_iff (isW : Char → Bool) (k : List Char) (prev : Option Char)
    (s : List Char) :
    wholeTokenFrom isW k prev s = true ↔
      ∃ a post, s = a ++ k ++ post ∧ (∀ c ∈ a.getLast?.or prev, isW c = false) ∧
        ∀ c ∈ post.head?, isW c = false := by
  induction s generalizing prev with
  | nil =>
    rw [wholeTokenFrom, tokenHere_iff]
    constructor
    · rintro ⟨hprev, post, hs, hpost⟩
      exact ⟨[], post, by simpa using hs, by simpa using hprev, hpost⟩
    · rintro ⟨a, post, hs, hprev, hpost⟩
      have ha : a = [] := by
        cases a with
        | nil => rfl
        | cons d a => simp at hs
      subst ha
      exact ⟨by simpa using hprev, post, by simpa using hs, hpost⟩
  | cons c t ih =>
    rw [wholeTokenFrom, Bool.or_eq_true, tokenHere_iff, ih]
    constructor
    · rintro (⟨hprev, post, hs, hpost⟩ | ⟨a, post, hs, hprev, hpost⟩)
      · exact ⟨[], post, by simpa using hs, by simpa using hprev, hpost⟩
      · refine ⟨c :: a, post, by simp [hs], ?_, hpost⟩
        rw [getLast?_cons_or]
        exact hprev
    · rintro ⟨a, post, hs, hprev, hpost⟩
      cases a with
      | nil =>
        exact Or.inl ⟨by simpa using hprev, post, by simpa using hs, hpost⟩
      | cons d a =>
        simp only [List.cons_append, List.cons.injEq] at hs
        obtain ⟨rfl, hs⟩ := hs
        rw [getLast?_cons_or] at hprev
        exact Or.inr ⟨a, post, hs, hprev, hpost⟩

/-- For the ASCII word characters, being a whole token is what the patterns
test: the two notions of a whole token differ in the class of the word
characters only. -/
theorem wholeTokenFrom_isWordChar (k s : String) :
    wholeTokenFrom isWordChar k.data none s.data = regexpMatchString (keywordPattern k) s := by
  rw [Bool.eq_iff_iff, regexpMatchString_keywordPattern, wholeTokenFrom_iff]
  unfold WholeWord
  simp only [Option.or_none]

/-- C2 as stated fails at the message `upír`: the pattern of the keyword `up`
matches it, although `up` occurs in it only as the beginning of the longer
word `upír` and not as a whole token. -/
theorem keyword_whole_token_counterexample :
    ¬ (regexpMatchString (keywordPattern "up") "upír" = true → wholeToken "up" "upír" = true) := by
  decide

/-- The handler answers the message `upír` of another user with the
affirmative reply. -/
theorem handle_upir_replies_running :
    (handleMsgFromDebuggingChannel demoServer (demoPostFromJson "user-id") demoBot
        (demoEvent "upír")).trace =
      [.CreatePost { Id := "", UserId := "", ChannelId := "debug-id",
                     Message := "Yes I'm running", RootId := "post-id" }] := by
  decide

/-- C2 (amended): keyword matching is case-sensitive and whole-word for the
ASCII word characters `[0-9A-Za-z_]`: each of the four keyword patterns
matches a text exactly when the keyword, with this very spelling, occurs in
it with no ASCII letter, digit or underscore right before it and none right
after it; a text in which every occurrence of the keyword touches such a
character does not match; any other character bounds a token, so `upír`
matches `up`; the text `alive` matches `alive`; the text `aliveness` matches
none of the keywords, nor does a text that has them in another case, and the
handler answers `aliveness` with the fallback reply. -/
theorem keyword_match_is_ascii_whole_word :
    (∀ c : Char, isWordChar c = true ↔
        (48 ≤ c.toNat ∧ c.toNat ≤ 57) ∨ (65 ≤ c.toNat ∧ c.toNat ≤ 90) ∨
        (97 ≤ c.toNat ∧ c.toNat ≤ 122) ∨ c.toNat = 95) ∧
    (∀ k ∈ keywords, ∀ s : String,
        regexpMatchString (keywordPattern k) s = true ↔ WholeWord k s) ∧
    (∀ k ∈ keywords, ∀ s : String,
        (∀ pre post : List Char, s.data = pre ++ k.data ++ post →
          (∃ c ∈ pre.getLast?, isWordChar c = true) ∨ (∃ c ∈ post.head?, isWordChar c = true)) →
        regexpMatchString (keywordPattern k) s = false) ∧
    regexpMatchString (keywordPattern "up") "upír" = true ∧
    regexpMatchString (keywordPattern "alive") "alive" = true ∧
    (∀ k ∈ keywords, regexpMatchString (keywordPattern k) "aliveness" = false) ∧
    (∀ k ∈ keywords, regexpMatchString (keywordPattern k) "Alive UP Running HELLO" = false) ∧
    (∀ (srv : Server) (PostFromJson : String → Option Post) (bot : Bot)
        (event : WebSocketEvent) (ch : Channel) (p : Post),
        PostedByOther PostFromJson bot event ch p → p.Message = "aliveness" →
        handleMsgFromDebuggingChannel srv PostFromJson bot event =
          ⟨[.CreatePost (replyTo ch p "I did not understand you!")], some ()⟩) := by
  refine ⟨isWordChar_iff, ?_, ?_, by decide, by decide, by decide, by decide, ?_⟩
  · intro k _ s
    exact regexpMatchString_keywordPattern k s
  · intro k _ s h
    rw [← not_wholeWord_iff]
    rintro ⟨pre, post, hs, hpre, hpost⟩
    rcases h pre post hs with ⟨c, hc, hw⟩ | ⟨c, hc, hw⟩
    · rw [hpre c hc] at hw
      exact Bool.false_ne_true hw
    · rw [hpost c hc] at hw
      exact Bool.false_ne_true hw
  · intro srv PostFromJson bot event ch p h hmsg
    rw [handle_posted srv PostFromJson bot event ch p h, hmsg]
    rfl

/-- C3: for a `posted` event in the debug channel whose payload decodes to a
post of another user, if one of the keywords occurs in the message as a whole
word, the handler performs exactly one action, the post of `Yes I'm running`
in the debug channel with the triggering post as root, and returns. -/
theorem handle_keyword_replies_running (srv : Server) (PostFromJson : String → Option Post)
    (bot : Bot) (event : WebSocketEvent) (ch : Channel) (p : Post)
    (h : PostedByOther PostFromJson bot event ch p)
    (hk : ∃ k ∈ keywords, WholeWord k p.Message) :
    handleMsgFromDebuggingChannel srv PostFromJson bot event =
      ⟨[.CreatePost { Id := "", UserId := "", ChannelId := ch.Id,
                      Message := "Yes I'm running", RootId := p.Id }], some ()⟩ := by
  rw [handle_posted srv PostFromJson bot event ch p h]
  have hany : keywords.any (fun k => regexpMatchString (keywordPattern k) p.Message) = true := by
    obtain ⟨k, hmem, hw⟩ := hk
    exact List.any_eq_true.mpr ⟨k, hmem, (regexpMatchString_keywordPattern k p.Message).mpr hw⟩
  rw [hany]
  rfl

/-- The message `hello there` of another user gets the affirmative reply. -/
theorem handle_keyword_replies_running_witness :
    handleMsgFromDebuggingChannel demoServer (demoPostFromJson "user-id") demoBot
        (demoEvent "hello there") =
      ⟨[.CreatePost { Id := "", UserId := "", ChannelId := "debug-id",
                      Message := "Yes I'm running", RootId := "post-id" }], some ()⟩ :=
  handle_keyword_replies_running demoServer (demoPostFromJson "user-id") demoBot
    (demoEvent "hello there") demoChannel ⟨"post-id", "user-id", "debug-id", "hello there", ""⟩
    ⟨rfl, ⟨_, rfl, rfl⟩, rfl, ⟨_, rfl, rfl⟩, ⟨_, rfl, by decide⟩⟩
    ⟨"hello", by decide, (regexpMatchString_keywordPattern _ _).mp (by decide)⟩

/-- C4: for a `posted` event in the debug channel whose payload decodes to a
post of another user, if none of the keywords occurs in the message as a
whole word, the handler performs exactly one action, the post of
`I did not understand you!` in the debug channel with the triggering post as
root, and returns. -/
theorem handle_no_keyword_replies_fallback (srv : Server)
    (PostFromJson : String → Option Post) (bot : Bot) (event : WebSocketEvent) (ch : Channel)
    (p : Post) (h : PostedByOther PostFromJson bot event ch p)
    (hk : ∀ k ∈ keywords, ¬ WholeWord k p.Message) :
    handleMsgFromDebuggingChannel srv PostFromJson bot event =
      ⟨[.CreatePost { Id := "", UserId := "", ChannelId := ch.Id,
                      Message := "I did not understand you!", RootId := p.Id }], some ()⟩ := by
  rw [handle_posted srv PostFromJson bot event ch p h]
  have hany : keywords.any (fun k => regexpMatchString (keywordPattern k) p.Message) = false := by
    rw [List.any_eq_false]
    intro k hmem
    rw [Bool.not_eq_true]
    exact (not_wholeWord_iff k p.Message).mp (hk k hmem)
  rw [hany]
  rfl

/-- The message `xyz completely unrelated` gets the fallback reply. -/
theorem handle_no_keyword_replies_fallback_witness :
    handleMsgFromDebuggingChannel demoServer (demoPostFromJson "user-id") demoBot
        (demoEvent "xyz completely unrelated") =
      ⟨[.CreatePost { Id := "", UserId := "", ChannelId := "debug-id",
                      Message := "I did not understand you!", RootId := "post-id" }],
        some ()⟩ :=
  handle_no_keyword_replies_fallback demoServer (demoPostFromJson "user-id") demoBot
    (demoEvent "xyz completely unrelated") demoChannel
    ⟨"post-id", "user-id", "debug-id", "xyz completely unrelated", ""⟩
    ⟨rfl, ⟨_, rfl, rfl⟩, rfl, ⟨_, rfl, rfl⟩, ⟨_, rfl, by decide⟩⟩
    (by
      intro k hmem
      rw [not_wholeWord_iff]
      revert k
      decide)

/-- C5 (what the code does): for a `posted` event in the debug channel whose
payload `PostFromJson` cannot decode, the handler sends no reply, but it does
not complete: it stops in a run-time panic, reading `post.Id` through the nil
pointer for the fallback reply. -/
theorem handle_undecodable_panics (srv : Server) (PostFromJson : String → Option Post)
    (bot : Bot) (event : WebSocketEvent) (ch : Channel) (text : String)
    (hch : bot.debugChannel = some ch)
    (hb : ∃ b, event.Broadcast = some b ∧ b.ChannelId = ch.Id)
    (hev : event.Event = "posted")
    (hdata : event.Data "post" = some text)
    (hnil : PostFromJson text = none) :
    handleMsgFromDebuggingChannel srv PostFromJson bot event = ⟨[], none⟩ := by
  obtain ⟨b, hb, hbc⟩ := hb
  unfold handleMsgFromDebuggingChannel
  simp [hch, hb, hbc, hev, hdata, hnil, deref, goPanic, WEBSOCKET_EVENT_POSTED]

/-- The payload `not json` makes the handler panic. -/
theorem handle_undecodable_panics_witness :
    handleMsgFromDebuggingChannel demoServer (demoPostFromJson "user-id") demoBot
        (demoEvent "not json") = ⟨[], none⟩ :=
  handle_undecodable_panics demoServer (demoPostFromJson "user-id") demoBot
    (demoEvent "not json") demoChannel "not json" rfl ⟨_, rfl, rfl⟩ rfl rfl rfl

/-- C6: the handler performs no action at all, so sends no reply, for an event
(i) whose channel id differs from the id of the debug channel, or (ii) whose
type is not `posted`, or (iii) whose payload decodes to a post written by the
bot itself, whatever the message is. -/
theorem handle_ignored_sends_nothing (srv : Server) (PostFromJson : String → Option Post)
    (bot : Bot) (event : WebSocketEvent)
    (h : (∃ ch b, bot.debugChannel = some ch ∧ event.Broadcast = some b ∧
            b.ChannelId ≠ ch.Id) ∨
         event.Event ≠ "posted" ∨
         (∃ text p u, event.Data "post" = some text ∧ PostFromJson text = some p ∧
            bot.user = some u ∧ p.UserId = u.Id)) :
    (handleMsgFromDebuggingChannel srv PostFromJson bot event).trace = [] := by
  unfold handleMsgFromDebuggingChannel
  rcases h with ⟨ch, b, hch, hb, hne⟩ | hev | ⟨text, p, u, hdata, hpost, hu, hself⟩
  · simp [hch, hb, hne, deref]
  · cases hb : event.Broadcast <;> cases hch : bot.debugChannel <;>
      simp [deref, goPanic, hev, WEBSOCKET_EVENT_POSTED]
  · cases hb : event.Broadcast <;> cases hch : bot.debugChannel <;>
      simp [deref, goPanic, hdata, hpost, hu, hself]

/-- The bot does not answer its own `hello`. -/
theorem handle_ignored_sends_nothing_witness :
    (handleMsgFromDebuggingChannel demoServer (demoPostFromJson "bot-id") demoBot
        (demoEvent "hello")).trace = [] :=
  handle_ignored_sends_nothing demoServer (demoPostFromJson "bot-id") demoBot
    (demoEvent "hello")
    (Or.inr (Or.inr ⟨"hello", ⟨"post-id", "bot-id", "debug-id", "hello", ""⟩, _, rfl, rfl, rfl,
      rfl⟩))

/-! ## Identity sync -/

theorem syncedUser_eq_self (u : User) (name : BotNameConf) (h : ¬ needsSync u name) :
    syncedUser u name = u := by
  unfold needsSync at h
  simp only [not_or, not_not] at h
  obtain ⟨h1, h2, h3⟩ := h
  cases u
  simp_all [syncedUser]

theorem not_needsSync_syncedUser (u : User) (name : BotNameConf) :
    ¬ needsSync (syncedUser u name) name := by
  simp [needsSync, syncedUser]

theorem updateBotInfo_eq (srv : Server) (bot : Bot) (u : User) (name : BotNameConf)
    (hu : bot.user = some u) :
    updateBotInfo srv bot name =
      if needsSync u name then
        ⟨[.UpdateUser (syncedUser u name)],
          some ({ bot with user := some (syncedUser u name) },
            (srv.UpdateUser (syncedUser u name)).map
              (fun e => errorsWrap e "We failed to update the Bot user"))⟩
      else ⟨[], some (bot, none)⟩ := by
  unfold updateBotInfo
  by_cases h : needsSync u name
  · have h2 : u.FirstName ≠ name.First ∨ u.LastName ≠ name.Last ∨ u.Username ≠ name.Username := by
      unfold needsSync at h
      tauto
    simp only [hu, deref, Exec.bind_eq, Exec.pure_eq, Exec.bind_mk_some, act, h, h2, if_true,
      syncedUser]
    cases srv.UpdateUser _ <;> rfl
  · have h2 : ¬ (u.FirstName ≠ name.First ∨ u.LastName ≠ name.Last ∨
        u.Username ≠ name.Username) := by
      unfold needsSync at h
      tauto
    simp only [hu, deref, Exec.bind_eq, Exec.pure_eq, Exec.bind_mk_some, h, h2, if_false]
    rfl

/-- C9: for a bot whose user is `u`, `updateBotInfo` issues an `UpdateUser`
call exactly when `Username`, `FirstName` or `LastName` of `u` differs from
the desired name, and then exactly one; when the name already matches it
issues no call and leaves the bot unchanged; and a second run with the same
name, on whatever bot the first run left behind, issues no call. -/
theorem updateBotInfo_idempotent (srv : Server) (bot : Bot) (u : User) (name : BotNameConf)
    (hu : bot.user = some u) :
    ((∃ x, Action.UpdateUser x ∈ (updateBotInfo srv bot name).trace) ↔
        (u.Username ≠ name.Username ∨ u.FirstName ≠ name.First ∨ u.LastName ≠ name.Last)) ∧
    ((updateBotInfo srv bot name).trace =
        if needsSync u name then [.UpdateUser (syncedUser u name)] else []) ∧
    ((u.Username = name.Username ∧ u.FirstName = name.First ∧ u.LastName = name.Last) →
        updateBotInfo srv bot name = ⟨[], some (bot, none)⟩) ∧
    (∀ bot1 err, (updateBotInfo srv bot name).result = some (bot1, err) →
        ∀ srv2 : Server, updateBotInfo srv2 bot1 name = ⟨[], some (bot1, none)⟩) := by
  rw [updateBotInfo_eq srv bot u name hu]
  refine ⟨?_, ?_, ?_, ?_⟩
  · change _ ↔ needsSync u name
    by_cases h : needsSync u name <;> simp [h]
  · by_cases h : needsSync u name <;> simp [h]
  · rintro ⟨h1, h2, h3⟩
    have h : ¬ needsSync u name := by simp [needsSync, h1, h2, h3]
    simp [h]
  · intro bot1 err hres srv2
    by_cases h : needsSync u name
    · simp only [h, if_true, Option.some.injEq, Prod.mk.injEq] at hres
      obtain ⟨hb, _⟩ := hres
      have hu1 : bot1.user = some (syncedUser u name) := by rw [← hb]
      rw [updateBotInfo_eq srv2 bot1 _ name hu1]
      simp [not_needsSync_syncedUser]
    · simp only [h, if_false, Option.some.injEq, Prod.mk.injEq] at hres
      obtain ⟨hb, _⟩ := hres
      subst hb
      rw [updateBotInfo_eq srv2 bot u name hu]
      simp [h]

/-- A bot whose name already matches is left alone. -/
theorem updateBotInfo_idempotent_witness :
    updateBotInfo demoServer demoBot ⟨"verbot", "VerBot", ""⟩ = ⟨[], some (demoBot, none)⟩ :=
  (updateBotInfo_idempotent demoServer demoBot ⟨"bot-id", "verbot", "VerBot", ""⟩
    ⟨"verbot", "VerBot", ""⟩ rfl).2.2.1 ⟨rfl, rfl, rfl⟩

/-! ## The bootstrap -/

theorem createDebugChannel_eq (srv : Server) (bot : Bot) (channelName : String) (u : User)
    (t : Team) (hu : bot.user = some u) (ht : bot.team = some t) :
    createDebugChannel srv bot channelName =
      ⟨channelTrace srv channelName u t,
        some (match resolvedChannel srv channelName u t with
          | .ok ch => ({ bot with debugChannel := ch }, none)
          | .error e => (bot, some (errorsWrap e "We failed to create the debug channel")))⟩ := by
  unfold createDebugChannel channelTrace resolvedChannel
  simp only [hu, ht, deref, Exec.bind_eq, Exec.pure_eq, Exec.bind_mk_some, act]
  cases h : srv.GetChannelByName channelName t.Id
  · simp only [newDebugChannel]
    cases h2 : srv.CreateChannel _ <;> simp [h2]
  · simp

theorem updateBotInfo_mk (srv : Server) (c : Client4) (u : User) (t : Option Team)
    (d : Option Channel) (w : Option WebSocketClient) (name : BotNameConf) :
    updateBotInfo srv ⟨c, some u, t, d, w⟩ name =
      if needsSync u name then
        ⟨[.UpdateUser (syncedUser u name)],
          some (⟨c, some (syncedUser u name), t, d, w⟩,
            (srv.UpdateUser (syncedUser u name)).map
              (fun e => errorsWrap e "We failed to update the Bot user"))⟩
      else ⟨[], some (⟨c, some u, t, d, w⟩, none)⟩ :=
  updateBotInfo_eq srv ⟨c, some u, t, d, w⟩ u name rfl

theorem updateBotInfo_nil (srv : Server) (c : Client4) (t : Option Team)
    (d : Option Channel) (w : Option WebSocketClient) (name : BotNameConf) :
    updateBotInfo srv ⟨c, none, t, d, w⟩ name = ⟨[], none⟩ := by
  simp [updateBotInfo, deref, goPanic]

theorem createDebugChannel_mk (srv : Server) (c : Client4) (u : User) (t : Team)
    (d : Option Channel) (w : Option WebSocketClient) (channelName : String) :
    createDebugChannel srv ⟨c, some u, some t, d, w⟩ channelName =
      ⟨channelTrace srv channelName u t,
        some (match resolvedChannel srv channelName u t with
          | .ok ch => (⟨c, some u, some t, ch, w⟩, none)
          | .error e => (⟨c, some u, some t, d, w⟩,
              some (errorsWrap e "We failed to create the debug channel")))⟩ :=
  createDebugChannel_eq srv ⟨c, some u, some t, d, w⟩ channelName u t rfl rfl

theorem createDebugChannel_nil (srv : Server) (c : Client4) (u : Option User)
    (d : Option Channel) (w : Option WebSocketClient) (channelName : String) :
    createDebugChannel srv ⟨c, u, none, d, w⟩ channelName = ⟨[], none⟩ := by
  simp [createDebugChannel, deref, goPanic]

theorem sendDebugMsg_mk (srv : Server) (c : Client4) (u : Option User) (t : Option Team)
    (ch : Channel) (w : Option WebSocketClient) (msg replyToId : String) :
    sendDebugMsg srv ⟨c, u, t, some ch, w⟩ msg replyToId =
      ⟨[.CreatePost
          { Id := "", UserId := "", ChannelId := ch.Id, Message := msg, RootId := replyToId }],
        some ()⟩ :=
  sendDebugMsg_eq srv ⟨c, u, t, some ch, w⟩ msg replyToId ch rfl

theorem sendDebugMsg_nil (srv : Server) (c : Client4) (u : Option User) (t : Option Team)
    (w : Option WebSocketClient) (msg replyToId : String) :
    sendDebugMsg srv ⟨c, u, t, none, w⟩ msg replyToId = ⟨[], none⟩ := by
  simp [sendDebugMsg, deref, goPanic]

theorem Connect_path (srv : Server) (conf : Conf) : ConnectPath srv conf (Connect srv conf) := by
  unfold Connect makeSureServerIsRunning login findTeam
  cases h1 : srv.GetOldClientConfig with
  | error e =>
    simpa [act] using ConnectPath.pingFailed e h1
  | ok v =>
    cases h2 : srv.Login conf.Login conf.Password with
    | error e =>
      simpa [act, h2] using ConnectPath.loginFailed v e h1 h2
    | ok ut =>
      obtain ⟨userObj, tok⟩ := ut
      cases userObj with
      | none =>
        simpa [act, h2, updateBotInfo_nil] using ConnectPath.userNil v tok h1 h2
      | some u =>
        simp only [act, Exec.bind_eq, Exec.pure_eq, Exec.bind_mk_some, h2, updateBotInfo_mk]
        by_cases h3 : needsSync u conf.Bot
        · cases h3e : srv.UpdateUser (syncedUser u conf.Bot) with
          | some e =>
            simpa [h3, h3e] using ConnectPath.syncFailed v u tok e h1 h2 h3 h3e
          | none =>
            have h3n : needsSync u conf.Bot → srv.UpdateUser (syncedUser u conf.Bot) = none :=
              fun _ => h3e
            have hst : syncTrace u conf.Bot = [.UpdateUser (syncedUser u conf.Bot)] := by
              simp [syncTrace, h3]
            simp only [h3, h3e, if_true, Option.map_none', Exec.bind_mk_some]
            generalize hs : syncedUser u conf.Bot = U at hst ⊢
            cases h4 : srv.GetTeamByName conf.Team with
            | error e =>
              simpa [hst, hs] using ConnectPath.teamFailed v u tok e h1 h2 h3n h4
            | ok teamObj =>
              cases teamObj with
              | none =>
                simpa [hst, hs, createDebugChannel_nil] using ConnectPath.teamNil v u tok h1 h2 h3n h4
              | some t =>
                simp only [Exec.bind_mk_some, createDebugChannel_mk, List.append_nil, List.nil_append]
                cases h5 : resolvedChannel srv conf.DebugChannel U t with
                | error e =>
                  have h5n : resolvedChannel srv conf.DebugChannel (syncedUser u conf.Bot) t = .error e := by
                    rw [hs]
                    exact h5
                  simpa [hst, hs] using ConnectPath.channelFailed v u tok t e h1 h2 h3n h4 h5n
                | ok rchannel =>
                  have h5n : resolvedChannel srv conf.DebugChannel (syncedUser u conf.Bot) t =
                      .ok rchannel := by
                    rw [hs]
                    exact h5
                  cases rchannel with
                  | none =>
                    simpa [hst, hs, deref, sendDebugMsg_nil] using
                      ConnectPath.channelNil v u tok t h1 h2 h3n h4 h5n
                  | some ch =>
                    simp only [Exec.bind_mk_some, deref, Exec.pure_eq, sendDebugMsg_mk, List.append_nil,
                      List.nil_append]
                    cases h7 : srv.NewWebSocketClient4 (stringsReplace conf.Url "http" "ws" 1) tok with
                    | some e =>
                      simpa [hst, hs, startedPost] using
                        ConnectPath.wsFailed v u tok t ch e h1 h2 h3n h4 h5n h7
                    | none =>
                      simpa [hst, hs, startedPost] using
                        ConnectPath.connected v u tok t ch h1 h2 h3n h4 h5n h7
        · have h3n : needsSync u conf.Bot → srv.UpdateUser (syncedUser u conf.Bot) = none :=
            fun hn => absurd hn h3
          have hst : syncTrace u conf.Bot = [] := by
            simp [syncTrace, h3]
          simp only [h3, if_false, Exec.bind_mk_some]
          rw [← syncedUser_eq_self u conf.Bot h3]
          generalize hs : syncedUser u conf.Bot = U
          cases h4 : srv.GetTeamByName conf.Team with
          | error e =>
            simpa [hst, hs] using ConnectPath.teamFailed v u tok e h1 h2 h3n h4
          | ok teamObj =>
            cases teamObj with
            | none =>
              simpa [hst, hs, createDebugChannel_nil] using ConnectPath.teamNil v u tok h1 h2 h3n h4
            | some t =>
              simp only [Exec.bind_mk_some, createDebugChannel_mk, List.append_nil, List.nil_append]
              cases h5 : resolvedChannel srv conf.DebugChannel U t with
              | error e =>
                have h5n : resolvedChannel srv conf.DebugChannel (syncedUser u conf.Bot) t = .error e := by
                  rw [hs]
                  exact h5
                simpa [hst, hs] using ConnectPath.channelFailed v u tok t e h1 h2 h3n h4 h5n
              | ok rchannel =>
                have h5n : resolvedChannel srv conf.DebugChannel (syncedUser u conf.Bot) t =
                    .ok rchannel := by
                  rw [hs]
                  exact h5
                cases rchannel with
                | none =>
                  simpa [hst, hs, deref, sendDebugMsg_nil] using
                    ConnectPath.channelNil v u tok t h1 h2 h3n h4 h5n
                | some ch =>
                  simp only [Exec.bind_mk_some, deref, Exec.pure_eq, sendDebugMsg_mk, List.append_nil,
                    List.nil_append]
                  cases h7 : srv.NewWebSocketClient4 (stringsReplace conf.Url "http" "ws" 1) tok with
                  | some e =>
                    simpa [hst, hs, startedPost] using
                      ConnectPath.wsFailed v u tok t ch e h1 h2 h3n h4 h5n h7
                  | none =>
                    simpa [hst, hs, startedPost] using
                      ConnectPath.connected v u tok t ch h1 h2 h3n h4 h5n h7

theorem Connect_order (srv : Server) (conf : Conf) :
    ∃ order ∈ bootstrapOrders, (Connect srv conf).trace.map phaseOf <+: order := by
  have hpath := Connect_path srv conf
  generalize Connect srv conf = r at hpath
  cases hpath with
  | pingFailed e h1 => exact ⟨[1, 2, 3, 4, 5, 6, 7, 7], by decide, by simp [phaseOf]⟩
  | loginFailed v e h1 h2 => exact ⟨[1, 2, 3, 4, 5, 6, 7, 7], by decide, by simp [phaseOf]⟩
  | userNil v tok h1 h2 => exact ⟨[1, 2, 3, 4, 5, 6, 7, 7], by decide, by simp [phaseOf]⟩
  | syncFailed v u tok e h1 h2 h3 h3e =>
    exact ⟨[1, 2, 3, 4, 5, 6, 7, 7], by decide, by simp [phaseOf]⟩
  | teamFailed v u tok e h1 h2 h3 h4 =>
    by_cases hs : needsSync u conf.Bot
    · exact ⟨[1, 2, 3, 4, 5, 6, 7, 7], by decide, by simp [syncTrace, hs, phaseOf]⟩
    · exact ⟨[1, 2, 4, 5, 6, 7, 7], by decide, by simp [syncTrace, hs, phaseOf]⟩
  | teamNil v u tok h1 h2 h3 h4 =>
    by_cases hs : needsSync u conf.Bot
    · exact ⟨[1, 2, 3, 4, 5, 6, 7, 7], by decide, by simp [syncTrace, hs, phaseOf]⟩
    · exact ⟨[1, 2, 4, 5, 6, 7, 7], by decide, by simp [syncTrace, hs, phaseOf]⟩
  | channelFailed v u tok t e h1 h2 h3 h4 h5 =>
    by_cases hs : needsSync u conf.Bot <;>
      cases hg : srv.GetChannelByName conf.DebugChannel t.Id <;>
      first
        | refine ⟨[1, 2, 3, 4, 5, 6, 7, 7], by decide, ?_⟩
          simp [syncTrace, channelTrace, hs, hg, phaseOf]
          done
        | refine ⟨[1, 2, 3, 4, 5, 5, 6, 7, 7], by decide, ?_⟩
          simp [syncTrace, channelTrace, hs, hg, phaseOf]
          done
        | refine ⟨[1, 2, 4, 5, 6, 7, 7], by decide, ?_⟩
          simp [syncTrace, channelTrace, hs, hg, phaseOf]
          done
        | refine ⟨[1, 2, 4, 5, 5, 6, 7, 7], by decide, ?_⟩
          simp [syncTrace, channelTrace, hs, hg, phaseOf]
  | channelNil v u tok t h1 h2 h3 h4 h5 =>
    by_cases hs : needsSync u conf.Bot <;>
      cases hg : srv.GetChannelByName conf.DebugChannel t.Id <;>
      first
        | refine ⟨[1, 2, 3, 4, 5, 6, 7, 7], by decide, ?_⟩
          simp [syncTrace, channelTrace, hs, hg, phaseOf]
          done
        | refine ⟨[1, 2, 3, 4, 5, 5, 6, 7, 7], by decide, ?_⟩
          simp [syncTrace, channelTrace, hs, hg, phaseOf]
          done
        | refine ⟨[1, 2, 4, 5, 6, 7, 7], by decide, ?_⟩
          simp [syncTrace, channelTrace, hs, hg, phaseOf]
          done
        | refine ⟨[1, 2, 4, 5, 5, 6, 7, 7], by decide, ?_⟩
          simp [syncTrace, channelTrace, hs, hg, phaseOf]
  | wsFailed v u tok t ch e h1 h2 h3 h4 h5 h7 =>
    by_cases hs : needsSync u conf.Bot <;>
      cases hg : srv.GetChannelByName conf.DebugChannel t.Id <;>
      first
        | refine ⟨[1, 2, 3, 4, 5, 6, 7, 7], by decide, ?_⟩
          simp [syncTrace, channelTrace, hs, hg, phaseOf]
          done
        | refine ⟨[1, 2, 3, 4, 5, 5, 6, 7, 7], by decide, ?_⟩
          simp [syncTrace, channelTrace, hs, hg, phaseOf]
          done
        | refine ⟨[1, 2, 4, 5, 6, 7, 7], by decide, ?_⟩
          simp [syncTrace, channelTrace, hs, hg, phaseOf]
          done
        | refine ⟨[1, 2, 4, 5, 5, 6, 7, 7], by decide, ?_⟩
          simp [syncTrace, channelTrace, hs, hg, phaseOf]
  | connected v u tok t ch h1 h2 h3 h4 h5 h7 =>
    by_cases hs : needsSync u conf.Bot <;>
      cases hg : srv.GetChannelByName conf.DebugChannel t.Id <;>
      first
        | refine ⟨[1, 2, 3, 4, 5, 6, 7, 7], by decide, ?_⟩
          simp [syncTrace, channelTrace, hs, hg, phaseOf]
          done
        | refine ⟨[1, 2, 3, 4, 5, 5, 6, 7, 7], by decide, ?_⟩
          simp [syncTrace, channelTrace, hs, hg, phaseOf]
          done
        | refine ⟨[1, 2, 4, 5, 6, 7, 7], by decide, ?_⟩
          simp [syncTrace, channelTrace, hs, hg, phaseOf]
          done
        | refine ⟨[1, 2, 4, 5, 5, 6, 7, 7], by decide, ?_⟩
          simp [syncTrace, channelTrace, hs, hg, phaseOf]

theorem Connect_fail_fast (srv : Server) (conf : Conf) :
    ∀ a ∈ (Connect srv conf).trace, ∀ err, fatalError srv a = some err →
      (Connect srv conf).trace.getLast? = some a ∧
      (Connect srv conf).result = some (none, some err) := by
  have hpath := Connect_path srv conf
  generalize Connect srv conf = r at hpath
  cases hpath with
  | pingFailed e h1 => simp [fatalError, h1]
  | loginFailed v e h1 h2 => simp [fatalError, h1, h2]
  | userNil v tok h1 h2 => simp [fatalError, h1, h2]
  | syncFailed v u tok e h1 h2 h3 h3e => simp [fatalError, h1, h2, h3e]
  | teamFailed v u tok e h1 h2 h3 h4 =>
    by_cases hs : needsSync u conf.Bot
    · simp [syncTrace, hs, fatalError, h1, h2, h3 hs, h4]
    · simp [syncTrace, hs, fatalError, h1, h2, h4]
  | teamNil v u tok h1 h2 h3 h4 =>
    by_cases hs : needsSync u conf.Bot
    · simp [syncTrace, hs, fatalError, h1, h2, h3 hs, h4]
    · simp [syncTrace, hs, fatalError, h1, h2, h4]
  | channelFailed v u tok t e h1 h2 h3 h4 h5 =>
    by_cases hs : needsSync u conf.Bot
    · cases hg : srv.GetChannelByName conf.DebugChannel t.Id with
      | error e0 =>
        simp only [resolvedChannel, hg] at h5
        simp [syncTrace, channelTrace, hs, hg, fatalError, h1, h2, h3 hs, h4, h5]
      | ok c =>
        simp only [resolvedChannel, hg] at h5
        cases h5
    · cases hg : srv.GetChannelByName conf.DebugChannel t.Id with
      | error e0 =>
        simp only [resolvedChannel, hg] at h5
        simp [syncTrace, channelTrace, hs, hg, fatalError, h1, h2, h4, h5]
      | ok c =>
        simp only [resolvedChannel, hg] at h5
        cases h5
  | channelNil v u tok t h1 h2 h3 h4 h5 =>
    by_cases hs : needsSync u conf.Bot
    · cases hg : srv.GetChannelByName conf.DebugChannel t.Id with
      | error e0 =>
        simp only [resolvedChannel, hg] at h5
        simp [syncTrace, channelTrace, hs, hg, fatalError, h1, h2, h3 hs, h4, h5]
      | ok c =>
        simp only [resolvedChannel, hg] at h5
        cases h5
        simp [syncTrace, channelTrace, hs, hg, fatalError, h1, h2, h3 hs, h4]
    · cases hg : srv.GetChannelByName conf.DebugChannel t.Id with
      | error e0 =>
        simp only [resolvedChannel, hg] at h5
        simp [syncTrace, channelTrace, hs, hg, fatalError, h1, h2, h4, h5]
      | ok c =>
        simp only [resolvedChannel, hg] at h5
        cases h5
        simp [syncTrace, channelTrace, hs, hg, fatalError, h1, h2, h4]
  | wsFailed v u tok t ch e h1 h2 h3 h4 h5 h7 =>
    by_cases hs : needsSync u conf.Bot
    · cases hg : srv.GetChannelByName conf.DebugChannel t.Id with
      | error e0 =>
        simp only [resolvedChannel, hg] at h5
        simp [syncTrace, channelTrace, hs, hg, fatalError, h1, h2, h3 hs, h4, h5, h7]
      | ok c =>
        simp only [resolvedChannel, hg] at h5
        cases h5
        simp [syncTrace, channelTrace, hs, hg, fatalError, h1, h2, h3 hs, h4, h7]
    · cases hg : srv.GetChannelByName conf.DebugChannel t.Id with
      | error e0 =>
        simp only [resolvedChannel, hg] at h5
        simp [syncTrace, channelTrace, hs, hg, fatalError, h1, h2, h4, h5, h7]
      | ok c =>
        simp only [resolvedChannel, hg] at h5
        cases h5
        simp [syncTrace, channelTrace, hs, hg, fatalError, h1, h2, h4, h7]
  | connected v u tok t ch h1 h2 h3 h4 h5 h7 =>
    by_cases hs : needsSync u conf.Bot
    · cases hg : srv.GetChannelByName conf.DebugChannel t.Id with
      | error e0 =>
        simp only [resolvedChannel, hg] at h5
        simp [syncTrace, channelTrace, hs, hg, fatalError, h1, h2, h3 hs, h4, h5, h7]
      | ok c =>
        simp only [resolvedChannel, hg] at h5
        cases h5
        simp [syncTrace, channelTrace, hs, hg, fatalError, h1, h2, h3 hs, h4, h7]
    · cases hg : srv.GetChannelByName conf.DebugChannel t.Id with
      | error e0 =>
        simp only [resolvedChannel, hg] at h5
        simp [syncTrace, channelTrace, hs, hg, fatalError, h1, h2, h4, h5, h7]
      | ok c =>
        simp only [resolvedChannel, hg] at h5
        cases h5
        simp [syncTrace, channelTrace, hs, hg, fatalError, h1, h2, h4, h7]

theorem Connect_nil_panics (srv : Server) (conf : Conf) :
    ∀ a ∈ (Connect srv conf).trace, nilObject srv a = true →
      (Connect srv conf).trace.getLast? = some a ∧ (Connect srv conf).result = none := by
  have hpath := Connect_path srv conf
  generalize Connect srv conf = r at hpath
  cases hpath with
  | pingFailed e h1 => simp [nilObject, h1]
  | loginFailed v e h1 h2 => simp [nilObject, h1, h2]
  | userNil v tok h1 h2 => simp [nilObject, h1, h2]
  | syncFailed v u tok e h1 h2 h3 h3e => simp [nilObject, h1, h2, h3e]
  | teamFailed v u tok e h1 h2 h3 h4 =>
    by_cases hs : needsSync u conf.Bot
    · simp [syncTrace, hs, nilObject, h1, h2, h3 hs, h4]
    · simp [syncTrace, hs, nilObject, h1, h2, h4]
  | teamNil v u tok h1 h2 h3 h4 =>
    by_cases hs : needsSync u conf.Bot
    · simp [syncTrace, hs, nilObject, h1, h2, h3 hs, h4]
    · simp [syncTrace, hs, nilObject, h1, h2, h4]
  | channelFailed v u tok t e h1 h2 h3 h4 h5 =>
    by_cases hs : needsSync u conf.Bot
    · cases hg : srv.GetChannelByName conf.DebugChannel t.Id with
      | error e0 =>
        simp only [resolvedChannel, hg] at h5
        simp [syncTrace, channelTrace, hs, hg, nilObject, h1, h2, h3 hs, h4, h5]
      | ok c =>
        simp only [resolvedChannel, hg] at h5
        cases h5
    · cases hg : srv.GetChannelByName conf.DebugChannel t.Id with
      | error e0 =>
        simp only [resolvedChannel, hg] at h5
        simp [syncTrace, channelTrace, hs, hg, nilObject, h1, h2, h4, h5]
      | ok c =>
        simp only [resolvedChannel, hg] at h5
        cases h5
  | channelNil v u tok t h1 h2 h3 h4 h5 =>
    by_cases hs : needsSync u conf.Bot
    · cases hg : srv.GetChannelByName conf.DebugChannel t.Id with
      | error e0 =>
        simp only [resolvedChannel, hg] at h5
        simp [syncTrace, channelTrace, hs, hg, nilObject, h1, h2, h3 hs, h4, h5]
      | ok c =>
        simp only [resolvedChannel, hg] at h5
        cases h5
        simp [syncTrace, channelTrace, hs, hg, nilObject, h1, h2, h3 hs, h4]
    · cases hg : srv.GetChannelByName conf.DebugChannel t.Id with
      | error e0 =>
        simp only [resolvedChannel, hg] at h5
        simp [syncTrace, channelTrace, hs, hg, nilObject, h1, h2, h4, h5]
      | ok c =>
        simp only [resolvedChannel, hg] at h5
        cases h5
        simp [syncTrace, channelTrace, hs, hg, nilObject, h1, h2, h4]
  | wsFailed v u tok t ch e h1 h2 h3 h4 h5 h7 =>
    by_cases hs : needsSync u conf.Bot
    · cases hg : srv.GetChannelByName conf.DebugChannel t.Id with
      | error e0 =>
        simp only [resolvedChannel, hg] at h5
        simp [syncTrace, channelTrace, hs, hg, nilObject, h1, h2, h3 hs, h4, h5, h7]
      | ok c =>
        simp only [resolvedChannel, hg] at h5
        cases h5
        simp [syncTrace, channelTrace, hs, hg, nilObject, h1, h2, h3 hs, h4, h7]
    · cases hg : srv.GetChannelByName conf.DebugChannel t.Id with
      | error e0 =>
        simp only [resolvedChannel, hg] at h5
        simp [syncTrace, channelTrace, hs, hg, nilObject, h1, h2, h4, h5, h7]
      | ok c =>
        simp only [resolvedChannel, hg] at h5
        cases h5
        simp [syncTrace, channelTrace, hs, hg, nilObject, h1, h2, h4, h7]
  | connected v u tok t ch h1 h2 h3 h4 h5 h7 =>
    by_cases hs : needsSync u conf.Bot
    · cases hg : srv.GetChannelByName conf.DebugChannel t.Id with
      | error e0 =>
        simp only [resolvedChannel, hg] at h5
        simp [syncTrace, channelTrace, hs, hg, nilObject, h1, h2, h3 hs, h4, h5, h7]
      | ok c =>
        simp only [resolvedChannel, hg] at h5
        cases h5
        simp [syncTrace, channelTrace, hs, hg, nilObject, h1, h2, h3 hs, h4, h7]
    · cases hg : srv.GetChannelByName conf.DebugChannel t.Id with
      | error e0 =>
        simp only [resolvedChannel, hg] at h5
        simp [syncTrace, channelTrace, hs, hg, nilObject, h1, h2, h4, h5, h7]
      | ok c =>
        simp only [resolvedChannel, hg] at h5
        cases h5
        simp [syncTrace, channelTrace, hs, hg, nilObject, h1, h2, h4, h7]

theorem Connect_returns (srv : Server) (conf : Conf)
    (hn : ∀ a ∈ (Connect srv conf).trace, nilObject srv a = false) :
    ∃ r, (Connect srv conf).result = some r := by
  have hpath := Connect_path srv conf
  generalize Connect srv conf = r at hpath hn
  cases hpath with
  | userNil v tok h1 h2 =>
    have h := hn (.Login conf.Login conf.Password) (by simp)
    simp [nilObject, h2] at h
  | teamNil v u tok h1 h2 h3 h4 =>
    have h := hn (.GetTeamByName conf.Team) (by simp)
    simp [nilObject, h4] at h
  | channelNil v u tok t h1 h2 h3 h4 h5 =>
    cases hg : srv.GetChannelByName conf.DebugChannel t.Id with
    | error e0 =>
      simp only [resolvedChannel, hg] at h5
      have h := hn (.CreateChannel (newDebugChannel conf.DebugChannel (syncedUser u conf.Bot) t))
        (by simp [channelTrace, hg])
      simp [nilObject, h5] at h
    | ok c =>
      simp only [resolvedChannel, hg] at h5
      cases h5
      have h := hn (.GetChannelByName conf.DebugChannel t.Id) (by simp [channelTrace])
      simp [nilObject, hg] at h
  | _ => exact ⟨_, rfl⟩

theorem Connect_succeeds (srv : Server) (conf : Conf)
    (hok : ∀ a ∈ (Connect srv conf).trace, fatalError srv a = none ∧ nilObject srv a = false) :
    ∃ bot ws, (Connect srv conf).result = some (some bot, none) ∧
      (Connect srv conf).trace.getLast? = some (.Listen ws) := by
  have hpath := Connect_path srv conf
  generalize Connect srv conf = r at hpath hok
  have hf := fun a ha => (hok a ha).1
  have hn := fun a ha => (hok a ha).2
  cases hpath with
  | pingFailed e h1 =>
    have h := hf .GetOldClientConfig (by simp)
    simp [fatalError, h1] at h
  | loginFailed v e h1 h2 =>
    have h := hf (.Login conf.Login conf.Password) (by simp)
    simp [fatalError, h2] at h
  | userNil v tok h1 h2 =>
    have h := hn (.Login conf.Login conf.Password) (by simp)
    simp [nilObject, h2] at h
  | syncFailed v u tok e h1 h2 h3 h3e =>
    have h := hf (.UpdateUser (syncedUser u conf.Bot)) (by simp)
    simp [fatalError, h3e] at h
  | teamFailed v u tok e h1 h2 h3 h4 =>
    have h := hf (.GetTeamByName conf.Team) (by simp)
    simp [fatalError, h4] at h
  | teamNil v u tok h1 h2 h3 h4 =>
    have h := hn (.GetTeamByName conf.Team) (by simp)
    simp [nilObject, h4] at h
  | channelFailed v u tok t e h1 h2 h3 h4 h5 =>
    cases hg : srv.GetChannelByName conf.DebugChannel t.Id with
    | error e0 =>
      simp only [resolvedChannel, hg] at h5
      have h := hf (.CreateChannel (newDebugChannel conf.DebugChannel (syncedUser u conf.Bot) t))
        (by simp [channelTrace, hg])
      simp [fatalError, h5] at h
    | ok c =>
      simp only [resolvedChannel, hg] at h5
      cases h5
  | channelNil v u tok t h1 h2 h3 h4 h5 =>
    cases hg : srv.GetChannelByName conf.DebugChannel t.Id with
    | error e0 =>
      simp only [resolvedChannel, hg] at h5
      have h := hn (.CreateChannel (newDebugChannel conf.DebugChannel (syncedUser u conf.Bot) t))
        (by simp [channelTrace, hg])
      simp [nilObject, h5] at h
    | ok c =>
      simp only [resolvedChannel, hg] at h5
      cases h5
      have h := hn (.GetChannelByName conf.DebugChannel t.Id) (by simp [channelTrace])
      simp [nilObject, hg] at h
  | wsFailed v u tok t ch e h1 h2 h3 h4 h5 h7 =>
    have h := hf (.NewWebSocketClient4 (stringsReplace conf.Url "http" "ws" 1) tok) (by simp)
    simp [fatalError, h7] at h
  | connected v u tok t ch h1 h2 h3 h4 h5 h7 =>
    refine ⟨_, ⟨stringsReplace conf.Url "http" "ws" 1, tok⟩, rfl, ?_⟩
    simp only [List.getLast?_append]
    rfl

theorem Connect_announcement (srv : Server) (conf : Conf) (p : Post)
    (hp : Action.CreatePost p ∈ (Connect srv conf).trace) :
    ∃ pre url tok post,
      (Connect srv conf).trace =
        pre ++ Action.CreatePost p :: Action.NewWebSocketClient4 url tok :: post := by
  have hpath := Connect_path srv conf
  generalize Connect srv conf = r at hpath hp
  cases hpath with
  | pingFailed e h1 => simp at hp
  | loginFailed v e h1 h2 => simp at hp
  | userNil v tok h1 h2 => simp at hp
  | syncFailed v u tok e h1 h2 h3 h3e => simp at hp
  | teamFailed v u tok e h1 h2 h3 h4 =>
    by_cases hs : needsSync u conf.Bot <;> simp [syncTrace, hs] at hp
  | teamNil v u tok h1 h2 h3 h4 =>
    by_cases hs : needsSync u conf.Bot <;> simp [syncTrace, hs] at hp
  | channelFailed v u tok t e h1 h2 h3 h4 h5 =>
    by_cases hs : needsSync u conf.Bot <;>
      cases hg : srv.GetChannelByName conf.DebugChannel t.Id <;>
      simp [syncTrace, channelTrace, hs, hg] at hp
  | channelNil v u tok t h1 h2 h3 h4 h5 =>
    by_cases hs : needsSync u conf.Bot <;>
      cases hg : srv.GetChannelByName conf.DebugChannel t.Id <;>
      simp [syncTrace, channelTrace, hs, hg] at hp
  | wsFailed v u tok t ch e h1 h2 h3 h4 h5 h7 =>
    have hpe : p = startedPost (syncedUser u conf.Bot) ch := by
      by_cases hs : needsSync u conf.Bot <;>
        cases hg : srv.GetChannelByName conf.DebugChannel t.Id <;>
        simpa [syncTrace, channelTrace, hs, hg] using hp
    subst hpe
    exact ⟨_, _, _, [], rfl⟩
  | connected v u tok t ch h1 h2 h3 h4 h5 h7 =>
    have hpe : p = startedPost (syncedUser u conf.Bot) ch := by
      by_cases hs : needsSync u conf.Bot <;>
        cases hg : srv.GetChannelByName conf.DebugChannel t.Id <;>
        simpa [syncTrace, channelTrace, hs, hg] using hp
    subst hpe
    exact ⟨_, _, _, [_], rfl⟩

theorem Connect_announces (srv : Server) (conf : Conf)
    (hok : ∀ a ∈ (Connect srv conf).trace, phaseOf a ≤ 5 →
      fatalError srv a = none ∧ nilObject srv a = false) :
    ∃ p, Action.CreatePost p ∈ (Connect srv conf).trace ∧
      p.Message = "_" ++ conf.Bot.Username ++ " has **started** running_" ∧ p.RootId = "" := by
  have hpath := Connect_path srv conf
  generalize Connect srv conf = r at hpath hok
  have hf := fun a ha hph => (hok a ha hph).1
  have hn := fun a ha hph => (hok a ha hph).2
  cases hpath with
  | pingFailed e h1 =>
    have h := hf .GetOldClientConfig (by simp) (by simp [phaseOf])
    simp [fatalError, h1] at h
  | loginFailed v e h1 h2 =>
    have h := hf (.Login conf.Login conf.Password) (by simp) (by simp [phaseOf])
    simp [fatalError, h2] at h
  | userNil v tok h1 h2 =>
    have h := hn (.Login conf.Login conf.Password) (by simp) (by simp [phaseOf])
    simp [nilObject, h2] at h
  | syncFailed v u tok e h1 h2 h3 h3e =>
    have h := hf (.UpdateUser (syncedUser u conf.Bot)) (by simp) (by simp [phaseOf])
    simp [fatalError, h3e] at h
  | teamFailed v u tok e h1 h2 h3 h4 =>
    have h := hf (.GetTeamByName conf.Team) (by simp) (by simp [phaseOf])
    simp [fatalError, h4] at h
  | teamNil v u tok h1 h2 h3 h4 =>
    have h := hn (.GetTeamByName conf.Team) (by simp) (by simp [phaseOf])
    simp [nilObject, h4] at h
  | channelFailed v u tok t e h1 h2 h3 h4 h5 =>
    cases hg : srv.GetChannelByName conf.DebugChannel t.Id with
    | error e0 =>
      simp only [resolvedChannel, hg] at h5
      have h := hf (.CreateChannel (newDebugChannel conf.DebugChannel (syncedUser u conf.Bot) t))
        (by simp [channelTrace, hg]) (by simp [phaseOf])
      simp [fatalError, h5] at h
    | ok c =>
      simp only [resolvedChannel, hg] at h5
      cases h5
  | channelNil v u tok t h1 h2 h3 h4 h5 =>
    cases hg : srv.GetChannelByName conf.DebugChannel t.Id with
    | error e0 =>
      simp only [resolvedChannel, hg] at h5
      have h := hn (.CreateChannel (newDebugChannel conf.DebugChannel (syncedUser u conf.Bot) t))
        (by simp [channelTrace, hg]) (by simp [phaseOf])
      simp [nilObject, h5] at h
    | ok c =>
      simp only [resolvedChannel, hg] at h5
      cases h5
      have h := hn (.GetChannelByName conf.DebugChannel t.Id) (by simp [channelTrace]) (by simp [phaseOf])
      simp [nilObject, hg] at h
  | wsFailed v u tok t ch e h1 h2 h3 h4 h5 h7 =>
    exact ⟨startedPost (syncedUser u conf.Bot) ch, by simp, rfl, rfl⟩
  | connected v u tok t ch h1 h2 h3 h4 h5 h7 =>
    exact ⟨startedPost (syncedUser u conf.Bot) ch, by simp, rfl, rfl⟩

theorem Connect_nil_user_panics :
    (Connect nilUserServer demoConf).trace =
        [.GetOldClientConfig, .Login "bot@example.com" "secret"] ∧
    (Connect nilUserServer demoConf).result = none := by
  decide

/-- C8: for every outcome of the remote calls, the phases of the calls of
`Connect`, in the order it issues them, are an initial segment of liveness
check, login, identity sync, team resolution, channel resolution, startup
announcement, event-stream connection; as soon as a call fails whose error
fails its phase, that call is the last action and `Connect` returns nil and
this error wrapped in the context of the phase; once the announcement is
posted, whatever the server answers to this post, the next call opens the
event-stream connection.  Besides, a call answered with no error and a nil
object is the last action and `Connect` then panics; when no call is answered
so, `Connect` returns; when moreover the phases before the announcement do
not fail, the announcement is posted; and when moreover no phase fails,
`Connect` returns the bot after all phases ran. -/
theorem Connect_phases_fail_fast (srv : Server) (conf : Conf) :
    (∃ order ∈ bootstrapOrders, (Connect srv conf).trace.map phaseOf <+: order) ∧
    (∀ a ∈ (Connect srv conf).trace, ∀ err, fatalError srv a = some err →
      (Connect srv conf).trace.getLast? = some a ∧
      (Connect srv conf).result = some (none, some err)) ∧
    (∀ p, Action.CreatePost p ∈ (Connect srv conf).trace →
      ∃ pre url tok post,
        (Connect srv conf).trace =
          pre ++ Action.CreatePost p :: Action.NewWebSocketClient4 url tok :: post) ∧
    (∀ a ∈ (Connect srv conf).trace, nilObject srv a = true →
      (Connect srv conf).trace.getLast? = some a ∧ (Connect srv conf).result = none) ∧
    ((∀ a ∈ (Connect srv conf).trace, nilObject srv a = false) →
      ∃ r, (Connect srv conf).result = some r) ∧
    ((∀ a ∈ (Connect srv conf).trace, phaseOf a ≤ 5 →
        fatalError srv a = none ∧ nilObject srv a = false) →
      ∃ p, Action.CreatePost p ∈ (Connect srv conf).trace ∧
        p.Message = "_" ++ conf.Bot.Username ++ " has **started** running_" ∧ p.RootId = "") ∧
    ((∀ a ∈ (Connect srv conf).trace, fatalError srv a = none ∧ nilObject srv a = false) →
      ∃ bot ws, (Connect srv conf).result = some (some bot, none) ∧
        (Connect srv conf).trace.getLast? = some (.Listen ws)) :=
  ⟨Connect_order srv conf, Connect_fail_fast srv conf, Connect_announcement srv conf,
    Connect_nil_panics srv conf, Connect_returns srv conf, Connect_announces srv conf,
    Connect_succeeds srv conf⟩

/-! ## Shutdown -/

theorem setupGracefulShutdown_eq (srv : Server) (bot : Bot) (u : User) (ch : Channel)
    (hu : bot.user = some u) (hch : bot.debugChannel = some ch) :
    setupGracefulShutdown srv bot =
      ⟨(match bot.wsClient with
          | some ws => [.Close ws]
          | none => []) ++ [.CreatePost (stoppedPost u ch), .exitChanSend], some ()⟩ := by
  unfold setupGracefulShutdown
  simp only [sendDebugMsg_eq srv bot _ _ ch hch, hu, deref, act, Exec.bind_eq, Exec.pure_eq]
  cases bot.wsClient <;> rfl

/-- C7 (what the code does): `Connect` never stores the websocket client it
opens in the bot, so for every bot that a successful `Connect` returns,
although `Connect` opened and started an event-stream connection, the
shutdown handler on a signal posts the one announcement
`<username> has stopped running`, sends once on `exitChan`, and calls `Close`
on no connection at all. -/
theorem shutdown_after_Connect_never_closes (srv : Server) (conf : Conf) (bot : Bot)
    (hconn : (Connect srv conf).result = some (some bot, none)) :
    (∃ ws, Action.Listen ws ∈ (Connect srv conf).trace) ∧
    bot.wsClient = none ∧
    ∃ u ch, bot.user = some u ∧ bot.debugChannel = some ch ∧
      ∀ srv2 : Server,
        setupGracefulShutdown srv2 bot =
          ⟨[.CreatePost
              { Id := "", UserId := "", ChannelId := ch.Id,
                Message := "_" ++ u.Username ++ " has **stopped** running_", RootId := "" },
            .exitChanSend], some ()⟩ ∧
        ∀ ws, Action.Close ws ∉ (setupGracefulShutdown srv2 bot).trace := by
  have hpath := Connect_path srv conf
  generalize Connect srv conf = r at hpath hconn
  cases hpath with
  | connected v u tok t ch h1 h2 h3 h4 h5 h7 =>
    simp only [Option.some.injEq, Prod.mk.injEq, and_true] at hconn
    subst hconn
    refine ⟨⟨⟨stringsReplace conf.Url "http" "ws" 1, tok⟩, by simp⟩, rfl,
      syncedUser u conf.Bot, ch, rfl, rfl, ?_⟩
    intro srv2
    rw [setupGracefulShutdown_eq srv2 _ _ ch rfl rfl]
    simp [stoppedPost]
  | _ => simp at hconn

/-- The bot that `Connect` returns on the example server closes nothing. -/
theorem shutdown_after_Connect_never_closes_witness :
    (∃ ws, Action.Listen ws ∈ (Connect demoServer demoConf).trace) ∧
    demoBot.wsClient = none ∧
    ∃ u ch, demoBot.user = some u ∧ demoBot.debugChannel = some ch ∧
      ∀ srv2 : Server,
        setupGracefulShutdown srv2 demoBot =
          ⟨[.CreatePost
              { Id := "", UserId := "", ChannelId := ch.Id,
                Message := "_" ++ u.Username ++ " has **stopped** running_", RootId := "" },
            .exitChanSend], some ()⟩ ∧
        ∀ ws, Action.Close ws ∉ (setupGracefulShutdown srv2 demoBot).trace :=
  shutdown_after_Connect_never_closes demoServer demoConf demoBot (by decide)

/-! ## The event-stream endpoint -/

theorem replaceAux_zero (old new s : List Char) : replaceAux old new 0 0 s = s := by
  induction s with
  | nil => rfl
  | cons c t ih => simp [replaceAux, ih]

theorem stringsReplace_http (rest : String) :
    stringsReplace ("http" ++ rest) "http" "ws" 1 = "ws" ++ rest := by
  cases rest with
  | mk r =>
    apply String.ext
    simp [stringsReplace, replaceAux, replaceAux_zero, List.isPrefixOf]

theorem schemeSubstituted_http (rest : String) :
    schemeSubstituted ("http://" ++ rest) = "ws://" ++ rest := by
  cases rest with
  | mk r =>
    apply String.ext
    simp [schemeSubstituted, splitScheme, List.isPrefixOf]

theorem schemeSubstituted_https (rest : String) :
    schemeSubstituted ("https://" ++ rest) = "wss://" ++ rest := by
  cases rest with
  | mk r =>
    apply String.ext
    simp [schemeSubstituted, splitScheme, List.isPrefixOf]

theorem Connect_endpoint (srv : Server) (conf : Conf) (url tok : String)
    (hmem : Action.NewWebSocketClient4 url tok ∈ (Connect srv conf).trace) :
    url = stringsReplace conf.Url "http" "ws" 1 := by
  have hpath := Connect_path srv conf
  generalize Connect srv conf = r at hpath hmem
  cases hpath <;>
    simp only [syncTrace, channelTrace, List.mem_append, List.mem_cons, List.mem_singleton,
      List.not_mem_nil, reduceCtorEq, or_false, false_or, Action.NewWebSocketClient4.injEq]
      at hmem
  all_goals try split at hmem
  all_goals try split at hmem
  all_goals simp at hmem
  all_goals exact hmem.1

/-- C10 as stated fails at `capitalsConf`: the configuration passes
`Validate`, and the endpoint that `Connect` opens for its URL
`HTTPS://httpbot.example.com` is `HTTPS://wsbot.example.com`: the host name
changed and the scheme did not, so the endpoint is not the URL with only its
scheme substituted and everything after the scheme unchanged. -/
theorem endpoint_scheme_only_counterexample :
    ¬ (capitalsConf.Validate = none →
        ∀ url tok, Action.NewWebSocketClient4 url tok ∈ (Connect demoServer capitalsConf).trace →
          url = schemeSubstituted capitalsConf.Url) := by
  intro h
  have hmem : Action.NewWebSocketClient4 "HTTPS://wsbot.example.com" "token" ∈
      (Connect demoServer capitalsConf).trace := by decide
  have hne : "HTTPS://wsbot.example.com" ≠ schemeSubstituted capitalsConf.Url := by decide
  exact hne (h (by decide) _ _ hmem)

/-- C10 (amended): for every configuration accepted by `Validate`, the endpoint
that `Connect` passes to the websocket client is the URL with its first
occurrence of `http` replaced by `ws`; when the URL begins with `http://` or
`https://` this is the URL with only its scheme substituted (`http` by `ws`,
`https` by `wss`) and everything after the scheme unchanged. -/
theorem endpoint_replaces_first_http (srv : Server) (conf : Conf) (url tok : String)
    (_hvalid : conf.Validate = none)
    (hmem : Action.NewWebSocketClient4 url tok ∈ (Connect srv conf).trace) :
    url = stringsReplace conf.Url "http" "ws" 1 ∧
    (∀ rest : String, conf.Url = "http://" ++ rest →
        url = "ws://" ++ rest ∧ url = schemeSubstituted conf.Url) ∧
    (∀ rest : String, conf.Url = "https://" ++ rest →
        url = "wss://" ++ rest ∧ url = schemeSubstituted conf.Url) := by
  have hurl := Connect_endpoint srv conf url tok hmem
  refine ⟨hurl, ?_, ?_⟩
  · intro rest hrest
    have h1 : conf.Url = "http" ++ ("://" ++ rest) := by
      rw [hrest, ← String.append_assoc]
      rfl
    have h2 : url = "ws://" ++ rest := by
      rw [hurl, h1, stringsReplace_http, ← String.append_assoc]
      rfl
    exact ⟨h2, by rw [h2, hrest, schemeSubstituted_http]⟩
  · intro rest hrest
    have h1 : conf.Url = "http" ++ ("s://" ++ rest) := by
      rw [hrest, ← String.append_assoc]
      rfl
    have h2 : url = "wss://" ++ rest := by
      rw [hurl, h1, stringsReplace_http, ← String.append_assoc]
      rfl
    exact ⟨h2, by rw [h2, hrest, schemeSubstituted_https]⟩

/-- The endpoint for `http://localhost:8065` is `ws://localhost:8065`. -/
theorem endpoint_replaces_first_http_witness :
    "ws://localhost:8065" = stringsReplace demoConf.Url "http" "ws" 1 ∧
    (∀ rest : String, demoConf.Url = "http://" ++ rest →
        "ws://localhost:8065" = "ws://" ++ rest ∧
        "ws://localhost:8065" = schemeSubstituted demoConf.Url) ∧
    (∀ rest : String, demoConf.Url = "https://" ++ rest →
        "ws://localhost:8065" = "wss://" ++ rest ∧
        "ws://localhost:8065" = schemeSubstituted demoConf.Url) :=
  endpoint_replaces_first_http demoServer demoConf "ws://localhost:8065" "token"
    (by decide) (by decide)

end Verbot
